import Mathlib

/-!
# Verification of the energy-dependency-inspector core

Shallow embedding of the repository's core components:

* `HostExecutor.execute_command` (src/dependency_resolver/executors/host_executor.py)
* `DockerExecutor.execute_command` / `get_container_info` / `_extract_image_name`
  (src/dependency_resolver/executors/docker_executor.py)
* `DockerInfoDetector.get_dependencies` (src/detectors/docker_info_detector.py)
* `PipDetector` (src/dependency_resolver/detectors/pip_detector.py)
* `NpmDetector` (src/dependency_resolver/detectors/npm_detector.py)
* `Orchestrator.resolve_dependencies` (src/dependency_resolver/core/orchestrator.py)
* `DependencyResolver.resolve_batch` / `_resolve_single`
  (src/dependency_resolver/core/resolver.py)

External collaborators (the operating system, the docker runtime, Python's
`subprocess`, `shlex`, `json` and `hashlib` standard-library modules) are
modelled as explicit oracle parameters: theorems quantify over them, so they
hold for every behaviour of the environment.
-/

/-! ## Common auxiliary definitions -/

/-- Python dictionaries with string keys/values, as insertion-ordered
association lists (matching CPython dict semantics). -/
abbrev Dict := List (String × String)

/-- `d[k]` lookup (first binding wins, as keys are unique under `dictSet`). -/
def dictGet (d : Dict) (k : String) : Option String :=
  (d.find? (fun kv => kv.1 == k)).map (·.2)

/-- Python `d[k] = v`: replace an existing binding in place, else append. -/
def dictSet (d : Dict) (k : String) (v : String) : Dict :=
  if d.any (fun kv => kv.1 == k) then
    d.map (fun kv => if kv.1 == k then (k, v) else kv)
  else
    d ++ [(k, v)]

/-- Python truthiness of an optional string (`None` and `""` are falsy). -/
def pyTruthy : Option String → Bool
  | none => false
  | some s => s ≠ ""

/-- Is `needle` a contiguous sublist of the haystack? (Executable.) -/
def isInfixB (needle : List Char) : List Char → Bool
  | [] => needle.isEmpty
  | c :: rest => needle.isPrefixOf (c :: rest) || isInfixB needle rest

/-- Python `sub in s` substring test. -/
def strContains (s sub : String) : Bool :=
  isInfixB sub.toList s.toList

/-- Python whitespace (ASCII) as stripped by `str.strip()`. -/
def pySpace (c : Char) : Bool :=
  c = ' ' || c = '\t' || c = '\n' || c = '\r' || c = '\x0b' || c = '\x0c'

/-- Python `s.strip()` (structurally recursive, kernel-evaluable). -/
def pyStrip (s : String) : String :=
  String.mk (((s.toList.dropWhile pySpace).reverse.dropWhile pySpace).reverse)

/-- `s.split(sep)` on character lists; fuel-based so it reduces in the
kernel (`fuel` is at least the remaining length plus one at every call
made from `pySplit`). -/
def splitOnAux (sep : List Char) : Nat → List Char → List Char → List (List Char)
  | 0, acc, rest => [acc.reverse ++ rest]
  | _ + 1, acc, [] => [acc.reverse]
  | fuel + 1, acc, c :: rest =>
    if sep.isPrefixOf (c :: rest) then
      acc.reverse :: splitOnAux sep fuel [] (List.drop sep.length (c :: rest))
    else splitOnAux sep fuel (c :: acc) rest

/-- Python `s.split(sep)` for non-empty `sep` (empty parts are kept). -/
def pySplit (s sep : String) : List String :=
  (splitOnAux sep.toList (s.toList.length + 1) [] s.toList).map String.mk

/-- `sep.join(xs)`. -/
def pyIntercalate (sep : String) : List String → String
  | [] => ""
  | [x] => x
  | x :: xs => x ++ sep ++ pyIntercalate sep xs

/-- Python `s.startswith(pre)`. -/
def pyStartsWith (s pre : String) : Bool := pre.toList.isPrefixOf s.toList

/-- Python `s.endswith(suf)`. -/
def pyEndsWith (s suf : String) : Bool :=
  suf.toList.reverse.isPrefixOf s.toList.reverse

/-- Drop the first `n` characters. -/
def pyDrop (s : String) (n : Nat) : String := String.mk (s.toList.drop n)

/-- Drop the last `n` characters. -/
def pyDropRight (s : String) (n : Nat) : String :=
  String.mk ((s.toList.reverse.drop n).reverse)

/-- ASCII lower-casing, as `str.lower()` acts on ASCII text. -/
def pyToLower (s : String) : String :=
  String.mk (s.toList.map (fun c =>
    if 'A' ≤ c && c ≤ 'Z' then Char.ofNat (c.toNat + 32) else c))

/-- Python `s.split(sep, 1)`, second component (everything after the first
separator occurrence); `""` when the separator does not occur. -/
def splitOnceRest (s sep : String) : String :=
  match pySplit s sep with
  | [] => ""
  | [_] => ""
  | _ :: rest => pyIntercalate sep rest

/-- Python `s.split(sep, 1)`, first component. -/
def splitOnceHead (s sep : String) : String :=
  match pySplit s sep with
  | [] => ""
  | x :: _ => x

/-- `os.path.dirname` for POSIX paths: everything up to the last `/`,
with trailing slashes stripped unless the result is all slashes. -/
def posixDirname (p : String) : String :=
  let cs := p.toList
  let head := (cs.reverse.dropWhile (fun c => c ≠ '/')).reverse
  if head.all (fun c => c = '/') then String.mk head
  else String.mk ((head.reverse.dropWhile (fun c => c = '/')).reverse)

/-- `os.path.basename` for POSIX paths: everything after the last `/`. -/
def posixBasename (p : String) : String :=
  String.mk ((p.toList.reverse.takeWhile (fun c => c ≠ '/')).reverse)

/-- A package record `{name, version, type}` as produced by the detectors. -/
structure Package where
  name : String
  version : String
  ptype : String
  deriving Repr, DecidableEq

/-! ## Host command channel (src/dependency_resolver/executors/host_executor.py)

`subprocess.run(command, shell=True, capture_output=True, text=True,
cwd=working_dir, timeout=30, check=False)` is the operating-system oracle:
a run either completes with captured output and a return code, times out,
or fails to start (`SubprocessError` / `OSError` with a message). -/

/-- Outcome of one `subprocess.run` invocation, as seen by the caller. -/
inductive SubprocessOutcome where
  | completed (stdout stderr : String) (returncode : Int)
  | timeoutExpired
  | failed (msg : String)
  deriving Repr, DecidableEq

/-- The operating system: what `subprocess.run` does for a given command
string and working directory. -/
def OsOracle := String → Option String → SubprocessOutcome

/-- `HostExecutor.execute_command`: run through the OS shell with a 30s
timeout; on timeout or execution error return exit code 1 with a synthetic
stderr message. Total: the embedded function never raises. -/
def hostExecuteCommand (os : OsOracle) (command : String)
    (working_dir : Option String) : String × String × Int :=
  match os command working_dir with
  | .completed stdout stderr returncode => (stdout, stderr, returncode)
  | .timeoutExpired => ("", "Command timed out after 30 seconds", 1)
  | .failed msg => ("", "Command execution failed: " ++ msg, 1)

/-! ## Docker command channel (src/dependency_resolver/executors/docker_executor.py)

`container.exec_run(cmd, stdout=True, stderr=True, tty=False)` is the
container-runtime oracle.  Without `demux`, the docker SDK returns the
process's standard output and standard error merged into one `output`
byte stream; the embedding therefore models `output` as a single (already
merged, decoded) optional string. -/

/-- `exec_run` result: merged output stream (None possible) and exit code. -/
structure ExecRunResult where
  output : Option String
  exit_code : Int
  deriving Repr, DecidableEq

/-- Outcome of one `exec_run` call: a result, or a raised
`docker.errors.APIError`, or a raised `OSError`/`ValueError`. -/
inductive DockerRunOutcome where
  | ok (r : ExecRunResult)
  | apiError (msg : String)
  | osError (msg : String)
  deriving Repr, DecidableEq

/-- The container runtime: behaviour of `exec_run` for a given argv vector
and optional workdir. -/
def DockerOracle := List String → Option String → DockerRunOutcome

/-- `result.output.decode("utf-8") if result.output else ""`. -/
def decodeOutput (o : Option String) : String := o.getD ""

/-- `shlex.split`, a Python stdlib collaborator: `none` models the
`ValueError` raised on unbalanced quoting. -/
def ShlexOracle := String → Option (List String)

/-- `DockerExecutor._parse_simple_command`: reject shell metacharacters,
then tokenize with `shlex.split`; reject empty results and option-like
first tokens. -/
def parseSimpleCommand (shlex : ShlexOracle) (command : String) :
    Option (List String) :=
  if ["&&", "||", "|", ">", "<", ";", "`", "$(", "$"].any
      (fun op => strContains command op) then
    none
  else
    match shlex command with
    | none => none
    | some parts =>
      match parts with
      | [] => none
      | p0 :: _ => if pyStartsWith p0 "-" then none else some parts

/-- `DockerExecutor._execute_command_direct`: fallback path without shell. -/
def executeCommandDirect (rt : DockerOracle) (shlex : ShlexOracle)
    (command : String) (working_dir : Option String) : String × String × Int :=
  match parseSimpleCommand shlex command with
  | none =>
    ("", "Command too complex for direct execution (no shell available): "
      ++ command, 1)
  | some cmd_parts =>
    match rt cmd_parts working_dir with
    | .ok r => (decodeOutput r.output, "", r.exit_code)
    | .apiError msg => ("", "Direct execution failed: " ++ msg, 1)
    | .osError msg => ("", "Direct execution failed: " ++ msg, 1)

/-- Is this APIError a "sh not found" error (substring match on the
lowercased message)? -/
def isShNotFound (msg : String) : Bool :=
  strContains (pyToLower msg) "executable file not found" &&
    strContains (pyToLower msg) "sh"

/-- `DockerExecutor.execute_command`: run `["sh", "-c", command]`; if the
shell binary is absent fall back to restricted direct execution. The
returned stderr component is always synthetic: the container process's
stderr is merged into the output stream. -/
def dockerExecuteCommand (rt : DockerOracle) (shlex : ShlexOracle)
    (command : String) (working_dir : Option String) : String × String × Int :=
  match rt ["sh", "-c", command] working_dir with
  | .ok r => (decodeOutput r.output, "", r.exit_code)
  | .apiError msg =>
    if isShNotFound msg then
      executeCommandDirect rt shlex command working_dir
    else
      ("", "Docker API error: " ++ msg, 1)
  | .osError msg => ("", "Command execution failed: " ++ msg, 1)

/-! ## Container identity (src/dependency_resolver/executors/docker_executor.py
`get_container_info` / `_extract_image_name`, and
src/detectors/docker_info_detector.py `DockerInfoDetector.get_dependencies`) -/

/-- `DockerExecutor._extract_image_name`: first tag, with any registry
prefix stripped down to the part after the last slash. -/
def extractImageName (tags : List String) : String :=
  match tags with
  | [] => "unknown"
  | first_tag :: _ =>
    if strContains first_tag "/" then
      match (pySplit first_tag "/").getLast? with
      | some last => last
      | none => first_tag
    else
      first_tag

/-- `DockerExecutor.get_container_info` (happy path: container attributes
readable): name, extracted image name, and image content digest. -/
def getContainerInfo (containerName : String) (imageTags : List String)
    (imageId : String) : Dict :=
  [("name", containerName), ("image", extractImageName imageTags),
   ("image_hash", imageId)]

/-- `DockerInfoDetector.get_dependencies` on a docker executor: repackage
the container info as `{name, image, hash}`. -/
def dockerInfoGetDependencies (containerName : String)
    (imageTags : List String) (imageId : String) : Dict :=
  let container_info := getContainerInfo containerName imageTags imageId
  [("name", (dictGet container_info "name").getD ""),
   ("image", (dictGet container_info "image").getD ""),
   ("hash", (dictGet container_info "image_hash").getD "")]

/-! ## Environment executor abstraction (src/dependency_resolver/core/interfaces.py)

An `EnvironmentExecutor` offers `execute_command` and `path_exists`.  The
concrete class of the executor is observable through `isinstance` checks
(`HostExecutor`, `DockerExecutor`, `DockerComposeExecutor`), modelled by a
`kind` tag.  The executors are stateless per call, so each is a pure
function of the command and working directory. -/

inductive ExecKind where
  | host | docker | compose
  deriving Repr, DecidableEq

/-- An environment executor: pure behaviour against a fixed target. -/
structure Exec where
  execute_command : String → Option String → String × String × Int
  path_exists : String → Bool
  kind : ExecKind

/-! ## Pip detector (src/dependency_resolver/detectors/pip_detector.py)

The detector instance caches the virtual-environment search result
(`_cached_venv_path`, `_venv_path_searched`); that mutable state is passed
explicitly.  `RuntimeError` raised by `_resolve_absolute_path` is modelled
with `Except String`.  `hashlib.sha256(...).hexdigest()` is an oracle
parameter `sha256hex`. -/

/-- The pip detector's mutable instance state. -/
structure PipState where
  explicit_venv_path : Option String
  cached_venv_path : Option String
  searched : Bool
  deriving Repr, DecidableEq

/-- `PipDetector._resolve_absolute_path`: `pwd`, or `cd '<path>' && pwd`,
in the executor's context; raises `RuntimeError` on failure. -/
def resolveAbsolutePath (ex : Exec) (path : String) : Except String String :=
  if path = "." then
    let (stdout, stderr, exit_code) := ex.execute_command "pwd" none
    if exit_code = 0 ∧ (pyStrip stdout) ≠ "" then .ok (pyStrip stdout)
    else .error ("Failed to resolve current directory in executor context: " ++ stderr)
  else
    let (stdout, stderr, exit_code) :=
      ex.execute_command ("cd '" ++ path ++ "' && pwd") none
    if exit_code = 0 ∧ (pyStrip stdout) ≠ "" then .ok (pyStrip stdout)
    else .error ("Failed to resolve path '" ++ path ++ "' in executor context: " ++ stderr)

/-- Tail of the batch `find` command built by `_find_venv_path`. -/
def findCmdSuffix : String :=
  " -maxdepth 1 -name 'pyvenv.cfg' -type f 2>/dev/null | head -1"

/-- `find_cmd = f"find {' '.join(escaped_paths)} ..."` with each path
wrapped in single quotes. -/
def mkFindCmd (paths : List String) : String :=
  "find " ++ pyIntercalate " " (paths.map (fun p => "'" ++ p ++ "'"))
    ++ findCmdSuffix

/-- The container-only system-wide fallback search command. -/
def systemWideFindCmd : String :=
  "find /opt /home /usr/local -name 'pyvenv.cfg' -type f 2>/dev/null | head -1"

/-- Shared tail of `_find_venv_path`: cache and return the directory of a
found `pyvenv.cfg`, or fall through. -/
def finishFindVenv (st : PipState) (out : String × String × Int)
    (onMiss : Option String × PipState) :
    Except String (Option String × PipState) :=
  let (stdout, _, exit_code) := out
  if exit_code = 0 ∧ (pyStrip stdout) ≠ "" then
    let venv_path := posixDirname (pyStrip stdout)
    .ok (some venv_path,
      { st with cached_venv_path := some venv_path, searched := true })
  else .ok onMiss

/-- Shared tail of `_find_venv_path`: the system-wide fallback search
(non-host executors only), then caching of a missing result. -/
def findVenvFallback (ex : Exec) (st : PipState) : Option String × PipState :=
  if ex.kind ≠ .host then
    let (stdout, _, exit_code) := ex.execute_command systemWideFindCmd none
    if exit_code = 0 ∧ (pyStrip stdout) ≠ "" then
      let venv_path := posixDirname (pyStrip stdout)
      (some venv_path,
        { st with cached_venv_path := some venv_path, searched := true })
    else (none, { st with cached_venv_path := none, searched := true })
  else (none, { st with cached_venv_path := none, searched := true })

/-- The candidate-path assembly of `PipDetector._find_venv_path`:
explicit override (shell-expanded via `echo`), `$VIRTUAL_ENV` in
non-host environments, the working directory and its conventional
subdirectory names, then expanded external per-project locations
(raising if the working directory cannot be resolved). -/
def buildSearchPaths (ex : Exec) (working_dir : Option String)
    (explicit_venv_path : Option String) : Except String (List String) :=
  let search_dir := if pyTruthy working_dir then working_dir.getD "." else "."
  let paths1 : List String :=
    match explicit_venv_path with
    | some ev =>
      if ev ≠ "" then
        let (stdout, _, exit_code) := ex.execute_command ("echo " ++ ev) none
        if exit_code = 0 ∧ pyStrip stdout ≠ "" then [pyStrip stdout] else []
      else []
    | none => []
  let paths2 : List String :=
    if ex.kind ≠ .host then
      let (stdout, _, exit_code) :=
        ex.execute_command "echo $VIRTUAL_ENV" working_dir
      if exit_code = 0 ∧ pyStrip stdout ≠ "" then [pyStrip stdout] else []
    else []
  let paths3 : List String :=
    [search_dir, search_dir ++ "/venv", search_dir ++ "/.venv",
     search_dir ++ "/env", search_dir ++ "/.env", search_dir ++ "/virtualenv"]
  let paths4 : Except String (List String) :=
    if pyTruthy working_dir then
      match resolveAbsolutePath ex (working_dir.getD "") with
      | .error e => .error e
      | .ok resolved_working_dir =>
        let project_name := posixBasename resolved_working_dir
        let external_locations :=
          ["~/.virtualenvs/" ++ project_name,
           "~/.local/share/virtualenvs/" ++ project_name,
           "~/.cache/pypoetry/virtualenvs/" ++ project_name,
           "~/.pyenv/versions/" ++ project_name]
        .ok (external_locations.foldl (fun acc location =>
          let (stdout, _, exit_code) :=
            ex.execute_command ("echo " ++ location) none
          if exit_code = 0 ∧ pyStrip stdout ≠ "" then acc ++ [pyStrip stdout]
          else acc) [])
    else .ok []
  match paths4 with
  | .error e => .error e
  | .ok p4 => .ok (paths1 ++ paths2 ++ paths3 ++ p4)

/-- `PipDetector._find_venv_path`: return the cached answer if already
searched, otherwise assemble the candidate paths and issue a single batch
`find` for `pyvenv.cfg` (`head -1` keeps the first validated candidate),
falling back to the container-only system-wide search; the result is
cached in the instance state. -/
def findVenvPath (ex : Exec) (working_dir : Option String) (st : PipState) :
    Except String (Option String × PipState) :=
  if st.searched then .ok (st.cached_venv_path, st)
  else
    match buildSearchPaths ex working_dir st.explicit_venv_path with
    | .error e => .error e
    | .ok search_paths =>
      if search_paths ≠ [] then
        finishFindVenv st (ex.execute_command (mkFindCmd search_paths) none)
          (findVenvFallback ex st)
      else .ok (findVenvFallback ex st)

/-- The command choice of `_get_pip_command` given the search outcome:
the venv's `bin/pip` when a venv was found and that binary exists,
otherwise plain `pip`. -/
def getPipCommandFrom (ex : Exec) (venv : Option String) : String :=
  match venv with
  | some venv_path =>
    let venv_pip := venv_path ++ "/bin/pip"
    if ex.path_exists venv_pip then venv_pip else "pip"
  | none => "pip"

/-- `PipDetector._get_pip_command`. -/
def getPipCommand (ex : Exec) (working_dir : Option String) (st : PipState) :
    Except String (String × PipState) :=
  match findVenvPath ex working_dir st with
  | .error e => .error e
  | .ok (venv, st') => .ok (getPipCommandFrom ex venv, st')

/-- The `pip show pip` stage of `_get_pip_location`: parse the
`Location:` line; `"system"` when the command fails or no such line. -/
def getPipLocationFrom (ex : Exec) (working_dir : Option String)
    (pip_command : String) : String :=
  match ex.execute_command (pip_command ++ " show pip") working_dir with
  | (stdout, _, exit_code) =>
    if exit_code = 0 then
      match (pySplit stdout "\n").find?
          (fun line => pyStartsWith line "Location:") with
      | some line => pyStrip (splitOnceRest line ":")
      | none => "system"
    else "system"

/-- `PipDetector._get_pip_location`. -/
def getPipLocation (ex : Exec) (working_dir : Option String) (st : PipState) :
    Except String (String × PipState) :=
  match getPipCommand ex working_dir st with
  | .error e => .error e
  | .ok (pip_command, st') =>
    .ok (getPipLocationFrom ex working_dir pip_command, st')

/-- The directory-content listing command built by
`PipDetector._generate_location_hash`. -/
def pipHashFindCmd (location : String) : String :=
  "cd '" ++ location ++ "' && find . " ++
  "-name '__pycache__' -prune -o " ++
  "-name '__editable__*' -prune -o " ++
  "-name 'pip*' -prune -o " ++
  "-name 'setuptools*' -prune -o " ++
  "-name 'pkg_resources' -prune -o " ++
  "-name '*distutils*' -prune -o " ++
  "-path '*/pip/_vendor' -prune -o " ++
  "-not -name '*.pyc' " ++
  "-not -name '*.pyo' " ++
  "-not -name 'INSTALLER' " ++
  "-not -name 'RECORD' " ++
  "\\( -type f -o -type l \\) -printf '%s %p %l\\n' | LC_COLLATE=C sort -n -k1,1 -k2,2"

/-- `PipDetector._generate_location_hash`: SHA-256 of the sorted listing;
`""` when the listing command fails. -/
def pipGenerateLocationHash (ex : Exec) (sha256hex : String → String)
    (location : String) : String :=
  let (stdout, _, exit_code) := ex.execute_command (pipHashFindCmd location) none
  if exit_code = 0 ∧ (pyStrip stdout) ≠ "" then sha256hex (pyStrip stdout) else ""

/-- Parse one `pip list --format=freeze` output into package records
(`name==version` lines). -/
def pipParsePackages (stdout : String) : List Package :=
  (pySplit (pyStrip stdout) "\n").foldl (fun acc line =>
    if line ≠ "" ∧ strContains line "==" then
      acc ++ [⟨pyStrip (splitOnceHead line "=="), pyStrip (splitOnceRest line "=="), "pip"⟩]
    else acc) []

/-- Result assembly of `get_dependencies` when `pip list` failed: zero
packages, and metadata only for a project-scope location. -/
def pipFinishFail (location : String) : List Package × Dict :=
  if location = "system" then ([], [])
  else ([], [("location", location)])

/-- Result assembly of `get_dependencies` when `pip list` succeeded:
empty metadata for system scope; otherwise the location plus, when at
least one package was found, the location hash. -/
def pipFinishOk (ex : Exec) (sha256hex : String → String)
    (packages : List Package) (location : String) : List Package × Dict :=
  if location = "system" then (packages, [])
  else
    let metadata : Dict := [("location", location)]
    let metadata :=
      if packages ≠ [] then
        dictSet metadata "hash" (pipGenerateLocationHash ex sha256hex location)
      else metadata
    (packages, metadata)

/-- The `pip list --format=freeze` stage of `get_dependencies`. -/
def pipListFrom (ex : Exec) (sha256hex : String → String)
    (working_dir : Option String) (pip_command : String) (st1 : PipState) :
    Except String (List Package × Dict × PipState) :=
  match ex.execute_command (pip_command ++ " list --format=freeze")
      working_dir with
  | (stdout, _, exit_code) =>
    if exit_code ≠ 0 then
      match getPipLocation ex working_dir st1 with
      | .error e => .error e
      | .ok (location, st2) =>
        .ok (⟨(pipFinishFail location).1, (pipFinishFail location).2, st2⟩)
    else
      match getPipLocation ex working_dir st1 with
      | .error e => .error e
      | .ok (location, st2) =>
        .ok (⟨(pipFinishOk ex sha256hex (pipParsePackages stdout) location).1,
          (pipFinishOk ex sha256hex (pipParsePackages stdout) location).2, st2⟩)

/-- Shared tail of `PipDetector.get_dependencies` (from the
`pip list --format=freeze` invocation on). -/
def pipListAndPackage (ex : Exec) (sha256hex : String → String)
    (working_dir : Option String) (st : PipState) :
    Except String (List Package × Dict × PipState) :=
  match getPipCommand ex working_dir st with
  | .error e => .error e
  | .ok (pip_command, st1) =>
    pipListFrom ex sha256hex working_dir pip_command st1

/-- `PipDetector.get_dependencies`: when a (truthy) working directory is
supplied and no virtual environment is found there, return zero packages
with the directory's absolute path as project-scope location; otherwise
list installed distributions and build project/system metadata. -/
def pipGetDependencies (ex : Exec) (sha256hex : String → String)
    (working_dir : Option String) (st : PipState) :
    Except String (List Package × Dict × PipState) :=
  if pyTruthy working_dir then
    match findVenvPath ex working_dir st with
    | .error e => .error e
    | .ok (none, st1) =>
      match resolveAbsolutePath ex (working_dir.getD "") with
      | .error e => .error e
      | .ok location => .ok ([], [("location", location)], st1)
    | .ok (some _, st1) => pipListAndPackage ex sha256hex working_dir st1
  else pipListAndPackage ex sha256hex working_dir st

/-- `PipDetector.has_system_scope`: system scope iff the resolved pip
location is `"system"`. -/
def pipHasSystemScope (ex : Exec) (working_dir : Option String)
    (st : PipState) : Except String (Bool × PipState) :=
  match getPipLocation ex working_dir st with
  | .error e => .error e
  | .ok (location, st') => .ok (location = "system", st')

/-! ## Npm detector (src/dependency_resolver/detectors/npm_detector.py)

`json.loads` plus the `npm_data.get("dependencies", {})` traversal is a
standard-library collaborator, modelled by an oracle mapping the raw
`npm list --json --depth=0` output to the dependency entries
(name, optional version); `none` models unparseable output
(`json.JSONDecodeError` / `AttributeError`, degraded to zero packages). -/

def NpmJsonOracle := String → Option (List (String × Option String))

/-- `NpmDetector._get_npm_location`: the resolved project directory when
`package.json` or `node_modules` is present, else `"system"`. -/
def getNpmLocation (ex : Exec) (working_dir : Option String) :
    Except String String :=
  let search_dir := if pyTruthy working_dir then working_dir.getD "." else "."
  if ex.path_exists (search_dir ++ "/package.json") then
    resolveAbsolutePath ex search_dir
  else if ex.path_exists (search_dir ++ "/node_modules") then
    resolveAbsolutePath ex search_dir
  else .ok "system"

/-- The directory-content listing command built by
`NpmDetector._generate_location_hash`. -/
def npmHashFindCmd (location : String) : String :=
  "cd '" ++ location ++ "' && find . " ++
  "-name 'node_modules/.cache' -prune -o " ++
  "-name '*.log' -prune -o " ++
  "-name '.npm' -prune -o " ++
  "-not -name '*.tmp' " ++
  "-not -name '*.temp' " ++
  "\\( -type f -o -type l \\) -printf '%s %p %l\\n' | LC_COLLATE=C sort -n -k1,1 -k2,2"

/-- `NpmDetector._generate_location_hash`. -/
def npmGenerateLocationHash (ex : Exec) (sha256hex : String → String)
    (location : String) : String :=
  let (stdout, _, exit_code) := ex.execute_command (npmHashFindCmd location) none
  if exit_code = 0 ∧ (pyStrip stdout) ≠ "" then sha256hex (pyStrip stdout) else ""

/-- `NpmDetector.get_dependencies`. -/
def npmGetDependencies (ex : Exec) (jsonDeps : NpmJsonOracle)
    (sha256hex : String → String) (working_dir : Option String) :
    Except String (List Package × Dict) :=
  let (stdout, _, exit_code) :=
    ex.execute_command "npm list --json --depth=0" working_dir
  match getNpmLocation ex working_dir with
  | .error e => .error e
  | .ok location =>
    if exit_code ≠ 0 then
      if location = "system" then .ok ([], [])
      else .ok ([], [("location", location)])
    else
      let packages : List Package :=
        match jsonDeps stdout with
        | none => []
        | some deps =>
          deps.map (fun nv => ⟨nv.1, nv.2.getD "unknown", "npm"⟩)
      if location = "system" then .ok (packages, [])
      else
        let metadata : Dict := [("location", location)]
        let metadata :=
          if packages ≠ [] then
            dictSet metadata "hash" (npmGenerateLocationHash ex sha256hex location)
          else metadata
        .ok (packages, metadata)

/-- `NpmDetector.has_system_scope`. -/
def npmHasSystemScope (ex : Exec) (working_dir : Option String) :
    Except String Bool :=
  match getNpmLocation ex working_dir with
  | .error e => .error e
  | .ok location => .ok (location = "system")

/-! ## Orchestrator (src/dependency_resolver/core/orchestrator.py)

`resolve_dependencies` iterates over the registered detectors.  A detector
is modelled by its interface behaviour against an executor: `is_usable`,
`has_system_scope` and `get_dependencies`, each of which may raise (the
orchestrator catches `RuntimeError`/`OSError`/`ValueError`, the exception
types the detectors raise); `Except String` models the raised exception.
Detector methods are deterministic against a fixed executor (the pip
cache only memoizes the first search), so repeated calls return the same
outcome. -/

/-- A registered detector's behaviour against a fixed execution target. -/
structure Detector where
  name : String
  is_usable : Exec → Option String → Except String Bool
  has_system_scope : Exec → Option String → Except String Bool
  get_dependencies : Exec → Option String → Except String (List Package × Dict)

/-- Intermediate aggregation state of one `resolve_dependencies` run. -/
structure OrchState where
  source : Option Dict
  project_packages : List Package
  project_metadata : List (String × Dict)
  system_packages : List Package
  system_metadata : List (String × Dict)
  deriving Repr, DecidableEq

/-- The empty aggregation state. -/
def OrchState.init : OrchState := ⟨none, [], [], [], []⟩

/-- Python `d[k] = v` on the `{detector-name: metadata}` dictionaries. -/
def metaSet (m : List (String × Dict)) (k : String) (v : Dict) :
    List (String × Dict) :=
  if m.any (fun kv => kv.1 == k) then
    m.map (fun kv => if kv.1 == k then (k, v) else kv)
  else m ++ [(k, v)]

/-- One iteration of the orchestrator's detector loop, with the per-detector
`try`/`except` containment: any raised exception leaves the state
unchanged. -/
def processDetector (skip_system_scope : Bool) (ex : Exec)
    (working_dir : Option String) (st : OrchState) (d : Detector) : OrchState :=
  match d.is_usable ex working_dir with
  | .error _ => st
  | .ok false => st
  | .ok true =>
    match (if skip_system_scope then d.has_system_scope ex working_dir
           else .ok false) with
    | .error _ => st
    | .ok true => st
    | .ok false =>
      if d.name = "docker-info" then
        match d.get_dependencies ex working_dir with
        | .error _ => st
        | .ok (_packages, metadata) =>
          if metadata ≠ [] then
            { st with source := some (dictSet metadata "type" "container") }
          else st
      else
        match d.get_dependencies ex working_dir with
        | .error _ => st
        | .ok (packages, metadata) =>
          match d.has_system_scope ex working_dir with
          | .error _ => st
          | .ok true =>
            { st with
              system_packages := st.system_packages ++ packages,
              system_metadata :=
                if metadata ≠ [] then metaSet st.system_metadata d.name metadata
                else st.system_metadata }
          | .ok false =>
            { st with
              project_packages := st.project_packages ++ packages,
              project_metadata :=
                if metadata ≠ [] then metaSet st.project_metadata d.name metadata
                else st.project_metadata }

/-- A project or system section `{packages, package-management}`. -/
structure ScopeSection where
  packages : List Package
  package_management : List (String × Dict)
  deriving Repr, DecidableEq

/-- The aggregated result `{source?, project?, system?}`. -/
structure AggregatedResult where
  source : Option Dict
  project : Option ScopeSection
  system : Option ScopeSection
  deriving Repr, DecidableEq

/-- Assemble the final result from the aggregation state: a section is
emitted only when it has packages or metadata. -/
def assembleResult (st : OrchState) : AggregatedResult :=
  { source := st.source
    project :=
      if st.project_packages ≠ [] ∨ st.project_metadata ≠ [] then
        some ⟨st.project_packages, st.project_metadata⟩
      else none
    system :=
      if st.system_packages ≠ [] ∨ st.system_metadata ≠ [] then
        some ⟨st.system_packages, st.system_metadata⟩
      else none }

/-- The packages of the project section (empty when the section is
absent). -/
def AggregatedResult.projectPackages (r : AggregatedResult) : List Package :=
  match r.project with
  | some sec => sec.packages
  | none => []

/-- `Orchestrator.resolve_dependencies`: validate the working directory
(caller error aborts the run), filter the detector list when only
container info is requested, run the detector loop, and assemble the
result sections (a section is present only if it has packages or
metadata). -/
def resolveDependencies (skip_system_scope : Bool) (detectors : List Detector)
    (ex : Exec) (working_dir : Option String) (only_container_info : Bool) :
    Except String AggregatedResult :=
  if working_dir.isSome ∧ ¬ ex.path_exists (working_dir.getD "") then
    .error ("Working directory does not exist: " ++ working_dir.getD "")
  else
    let detectors_to_run :=
      if only_container_info then
        detectors.filter (fun d => d.name == "docker-info")
      else detectors
    .ok (assembleResult (detectors_to_run.foldl
      (processDetector skip_system_scope ex working_dir) OrchState.init))

/-- The kinds of detector-interface calls the orchestrator performs. -/
inductive EvKind where
  | usability | scope | extract
  deriving Repr, DecidableEq

/-- The sequence of detector-interface calls `resolve_dependencies` makes
while processing one detector: `is_usable`, then (with system-scope
skipping on) `has_system_scope`, then `get_dependencies`, then — for
package detectors whose extraction returned — `has_system_scope` again
for scope routing. -/
def detectorTrace (skip_system_scope : Bool) (ex : Exec)
    (working_dir : Option String) (d : Detector) : List EvKind :=
  match d.is_usable ex working_dir with
  | .error _ => [.usability]
  | .ok false => [.usability]
  | .ok true =>
    if skip_system_scope then
      match d.has_system_scope ex working_dir with
      | .error _ => [.usability, .scope]
      | .ok true => [.usability, .scope]
      | .ok false =>
        if d.name = "docker-info" then [.usability, .scope, .extract]
        else
          match d.get_dependencies ex working_dir with
          | .error _ => [.usability, .scope, .extract]
          | .ok _ => [.usability, .scope, .extract, .scope]
    else
      if d.name = "docker-info" then [.usability, .extract]
      else
        match d.get_dependencies ex working_dir with
        | .error _ => [.usability, .extract]
        | .ok _ => [.usability, .extract, .scope]

/-! ## Batch resolver (src/dependency_resolver/core/resolver.py)

`resolve_batch` submits every request to a thread pool and records each
completed future's result at the submitting index.  The scheduler's
choice of completion order is an explicit parameter (`completion_order`,
a permutation of the indices); workers share no mutable state, so each
request's outcome is a pure function of the request.  Executor
construction (`_create_executor`, including docker container lookup) is
the environment oracle `CreateExecutorOracle`.  The wall-clock
`execution_time` field is not representable in the embedding and is
omitted; the progress callback does not affect the returned results. -/

/-- A single resolution request (immutable value object). -/
structure ResolveRequest where
  environment_type : String
  environment_identifier : Option String := none
  working_dir : Option String := none
  venv_path : Option String := none
  only_container_info : Bool := false
  deriving Repr, DecidableEq, Inhabited

/-- The per-request outcome record. -/
structure ResolveResult where
  request : ResolveRequest
  dependencies : Option AggregatedResult := none
  error : Option String := none
  success : Bool := false
  deriving Repr, DecidableEq

/-- `_create_executor` plus executor construction: either a working
executor for the request's target, or the message of the raised
`RuntimeError`/`ValueError` (e.g. container not found / not running). -/
def CreateExecutorOracle := ResolveRequest → Except String Exec

/-- `DependencyResolver._resolve_single`: construct the executor and an
orchestrator for the request, resolve, and capture success or the caught
exception's message in the result. -/
def resolveSingle (createExec : CreateExecutorOracle)
    (mkDetectors : Option String → List Detector) (skip_system_scope : Bool)
    (request : ResolveRequest) : ResolveResult :=
  match createExec request with
  | .error e => { request := request, error := some e, success := false }
  | .ok ex =>
    match resolveDependencies skip_system_scope (mkDetectors request.venv_path)
        ex request.working_dir request.only_container_info with
    | .error e => { request := request, error := some e, success := false }
    | .ok deps =>
      { request := request, dependencies := some deps, success := true }

/-- The `as_completed` loop of `resolve_batch`: store each completed
result at its submission index; with `fail_fast`, stop processing after
the first unsuccessful result (remaining slots keep `none`, modelling
cancelled/unprocessed futures). -/
def processCompletions (outcome : Nat → ResolveResult) (fail_fast : Bool) :
    List Nat → List (Option ResolveResult) → List (Option ResolveResult)
  | [], results => results
  | i :: rest, results =>
    let result := outcome i
    let results' := results.set i (some result)
    if fail_fast ∧ result.success = false then results'
    else processCompletions outcome fail_fast rest results'

/-- `DependencyResolver.resolve_batch`: fan out, collect positionally,
and finally drop unfilled slots (`[r for r in results if r is not None]`). -/
def resolveBatch (createExec : CreateExecutorOracle)
    (mkDetectors : Option String → List Detector) (skip_system_scope : Bool)
    (requests : List ResolveRequest) (completion_order : List Nat)
    (fail_fast : Bool) : List ResolveResult :=
  if requests = [] then []
  else
    let outcome := fun i =>
      resolveSingle createExec mkDetectors skip_system_scope
        (requests.getD i default)
    (processCompletions outcome fail_fast completion_order
      (List.replicate requests.length none)).filterMap id

/-! ## A filesystem-model command channel

A concrete `Exec` used to settle the venv-discovery claims: a host target
whose filesystem is a list of existing file paths.  It interprets exactly
the commands `PipDetector` issues — `pwd`, `echo`, `cd ... && pwd`, and
the batch `find` for `pyvenv.cfg` markers (whose `head -1` semantics is
"first listed path containing the marker at depth one"; `find` visits its
path arguments in command-line order). -/

/-- The filesystem model: existing files, plus shell context. `cd`
succeeds for every directory (only marker-file presence is modelled). -/
structure FsModel where
  files : List String
  cwd : String
  home : String
  deriving Repr

/-- POSIX shell `echo` argument expansion (leading `~` only). -/
def shellEcho (fsys : FsModel) (arg : String) : String :=
  if pyStartsWith arg "~" then fsys.home ++ pyDrop arg 1 else arg

/-- `find p1 .. pn -maxdepth 1 -name 'pyvenv.cfg' -type f | head -1`:
the first argument path that directly contains the marker file, as the
marker's full path. -/
def findMarkerPath (files : List String) (paths : List String) :
    Option String :=
  (paths.find? (fun p => files.contains (p ++ "/pyvenv.cfg"))).map
    (fun p => p ++ "/pyvenv.cfg")

/-- Recover the quoted path list of a batch find command body. -/
def parseFindPaths (mid : String) : List String :=
  pySplit (pyDropRight (pyDrop mid 1) 1) "' '"

/-- Stdout/stderr/exit of the batch find (pipeline exit code is `head`'s,
always 0). -/
def fsFindResult (files : List String) (paths : List String) :
    String × String × Int :=
  match findMarkerPath files paths with
  | some f => (f ++ "\n", "", 0)
  | none => ("", "", 0)

/-- The system-wide fallback search: first file under `/opt`, `/home` or
`/usr/local` named `pyvenv.cfg`. -/
def fsSystemWideResult (files : List String) : String × String × Int :=
  match files.find? (fun f =>
      (pyStartsWith f "/opt" || pyStartsWith f "/home" ||
        pyStartsWith f "/usr/local") && pyEndsWith f "/pyvenv.cfg") with
  | some f => (f ++ "\n", "", 0)
  | none => ("", "", 0)

/-- Interpret one shell command against the filesystem model. -/
def fsExecCmd (fsys : FsModel) (cmd : String) : String × String × Int :=
  if cmd = "pwd" then (fsys.cwd ++ "\n", "", 0)
  else if cmd = "echo $VIRTUAL_ENV" then ("\n", "", 0)
  else if pyStartsWith cmd "echo " then
    (shellEcho fsys (pyDrop cmd 5) ++ "\n", "", 0)
  else if pyStartsWith cmd "cd '" && pyEndsWith cmd "' && pwd" then
    let p := pyDropRight (pyDrop cmd 4) 8
    let a := if pyStartsWith p "/" then p else fsys.cwd ++ "/" ++ p
    (a ++ "\n", "", 0)
  else if cmd = systemWideFindCmd then fsSystemWideResult fsys.files
  else if pyStartsWith cmd "find '" && pyEndsWith cmd findCmdSuffix then
    fsFindResult fsys.files (parseFindPaths (pyDropRight (pyDrop cmd 5) findCmdSuffix.length))
  else ("", "command not found", 127)

/-- The filesystem-model executor (a host target). -/
def fsExecutor (fsys : FsModel) : Exec where
  execute_command := fun cmd _wd => fsExecCmd fsys cmd
  path_exists := fun p => fsys.files.contains p
  kind := .host

/-- A fresh pip detector state with an explicit venv override. -/
def pipStateWithOverride (ov : String) : PipState :=
  { explicit_venv_path := some ov, cached_venv_path := none, searched := false }

/-- The candidate list `_find_venv_path` assembles for working directory
`/p`, override `/ov`, home `/h`: override first, then the working
directory and its conventional subdirectories, then the external
per-project locations. -/
def venvSearchCandidates : List String :=
  ["/ov", "/p", "/p/venv", "/p/.venv", "/p/env", "/p/.env", "/p/virtualenv",
   "/h/.virtualenvs/p", "/h/.local/share/virtualenvs/p",
   "/h/.cache/pypoetry/virtualenvs/p", "/h/.pyenv/versions/p"]

/-! ## Concrete fixtures used by the witnesses -/

/-- A trivial healthy host executor: every command succeeds with empty
output, every path exists. -/
def exTrivial : Exec := ⟨fun _ _ => ("", "", 0), fun _ => true, .host⟩

/-- A detector that works and reports one system-scope package. -/
def goodDetector : Detector :=
  ⟨"apk", fun _ _ => .ok true, fun _ _ => .ok true,
    fun _ _ => .ok ([⟨"musl", "1.2.4-r2", "apk"⟩], [])⟩

/-- A detector whose usability check and extraction always raise. -/
def badDetector : Detector :=
  ⟨"pip", fun _ _ => .error "pip exploded", fun _ _ => .error "pip exploded",
    fun _ _ => .error "pip exploded"⟩

/-- A usable detector classified as system scope. -/
def sysScopeDetector : Detector :=
  ⟨"dpkg", fun _ _ => .ok true, fun _ _ => .ok true,
    fun _ _ => .ok ([⟨"base-files", "12.4", "dpkg"⟩], [])⟩

/-- A usable detector classified as project scope. -/
def projScopeDetector : Detector :=
  ⟨"npm", fun _ _ => .ok true, fun _ _ => .ok false,
    fun _ _ => .ok ([⟨"left-pad", "1.3.0", "npm"⟩], [("location", "/app")])⟩

/-- An executor for the pip-hash witness: pip is usable inside a venv at
`/proj/venv/lib`, one installed package, hash listing fails. -/
def pipWitnessExec : Exec :=
  ⟨fun cmd _ =>
    if cmd = "pip list --format=freeze" then ("alpha==1.0\n", "", 0)
    else if cmd = "pip show pip" then
      ("Name: pip\nLocation: /proj/venv/lib\n", "", 0)
    else ("", "", 1),
   fun _ => false, .host⟩

/-- An executor for the npm witness: a project at `/app`. -/
def npmWitnessExec : Exec :=
  ⟨fun cmd _ =>
    if cmd = "npm list --json --depth=0" then ("{}", "", 0)
    else if cmd = "pwd" then ("/app\n", "", 0)
    else ("", "", 1),
   fun p => p = "./package.json", .host⟩

/-- An executor for an empty project directory `/emptyproj`: path
resolution works, every other command succeeds with empty output (so no
virtual environment is discovered). -/
def emptyProjExec : Exec :=
  ⟨fun cmd _ =>
    if cmd = "cd '/emptyproj' && pwd" then ("/emptyproj\n", "", 0)
    else ("", "", 0),
   fun _ => true, .host⟩

/-- A container runtime accepting every command with merged output. -/
def rtMerged : DockerOracle := fun _ _ => .ok ⟨some "stdout and stderr interleaved", 0⟩

/-- A container runtime without a shell binary: the `sh -c` path raises
the characteristic APIError, direct execution succeeds. -/
def rtNoShell : DockerOracle := fun argv _ =>
  if argv.take 2 = ["sh", "-c"] then
    .apiError "OCI runtime exec failed: exec: \"sh\": executable file not found in PATH"
  else .ok ⟨some "pip 24.0", 0⟩

/-- A whitespace tokenizer standing in for `shlex.split` on quote-free
commands. -/
def shlexSpaces : ShlexOracle := fun s => some ((pySplit s " ").filter (fun t => t ≠ ""))

/-- A host-target request. -/
def hostRequest : ResolveRequest := { environment_type := "host" }

/-- A request naming an unreachable container. -/
def ghostRequest : ResolveRequest :=
  { environment_type := "docker", environment_identifier := some "ghost" }

/-- Executor construction failing exactly for the unreachable container
(the docker constructor's fail-fast error). -/
def ceGhost : CreateExecutorOracle := fun r =>
  if r.environment_type = "docker" then .error "Container 'ghost' not found"
  else .ok exTrivial

/-- A host-like executor with no project files and blank command output:
every location resolves to system scope. -/
def noProjExec : Exec := ⟨fun _ _ => ("", "", 0), fun _ => false, .host⟩

/-! ## Claim theorems -/

/-- **C5**: the local-process channel's `execute_command` never raises
(it is a total function of the subprocess outcome): a completed run's
stdout, stderr and exit code are returned unchanged, and on timeout or
any execution error it returns exit code 1, empty stdout and a non-empty
descriptive stderr message. -/
theorem host_execute_total_and_sentinel (os : OsOracle) (command : String)
    (working_dir : Option String) :
    (∀ stdout stderr code, os command working_dir = .completed stdout stderr code →
      hostExecuteCommand os command working_dir = (stdout, stderr, code)) ∧
    (os command working_dir = .timeoutExpired →
      hostExecuteCommand os command working_dir =
        ("", "Command timed out after 30 seconds", 1) ∧
      ("Command timed out after 30 seconds" : String) ≠ "") ∧
    (∀ msg, os command working_dir = .failed msg →
      hostExecuteCommand os command working_dir =
        ("", "Command execution failed: " ++ msg, 1) ∧
      ("Command execution failed: " ++ msg) ≠ "") := by
  refine ⟨?_, ?_, ?_⟩
  · intro stdout stderr code h
    simp [hostExecuteCommand, h]
  · intro h
    refine ⟨by simp [hostExecuteCommand, h], by decide⟩
  · intro msg h
    refine ⟨by simp [hostExecuteCommand, h], ?_⟩
    intro hcontra
    have := congrArg String.length hcontra
    simp [String.length_append] at this
    exact (by decide : ¬ ("Command execution failed: ".length = 0)) this.1

/-- Witness for **C5** at concrete oracles: one completing, one timing
out, one failing to start. -/
theorem host_execute_total_and_sentinel_witness :
    hostExecuteCommand (fun _ _ => .completed "out" "err" 3) "dpkg -l" none
      = ("out", "err", 3) ∧
    hostExecuteCommand (fun _ _ => .timeoutExpired) "sleep 99" none
      = ("", "Command timed out after 30 seconds", 1) ∧
    hostExecuteCommand (fun _ _ => .failed "No such file") "pip -V" none
      = ("", "Command execution failed: No such file", 1) :=
  ⟨(host_execute_total_and_sentinel (fun _ _ => .completed "out" "err" 3)
      "dpkg -l" none).1 "out" "err" 3 rfl,
   ((host_execute_total_and_sentinel (fun _ _ => .timeoutExpired)
      "sleep 99" none).2.1 rfl).1,
   ((host_execute_total_and_sentinel (fun _ _ => .failed "No such file")
      "pip -V" none).2.2 "No such file" rfl).1⟩

/-- **C9**: whenever the container runtime accepts a command — on the
shell path or on the direct-exec fallback — the stderr component returned
by the single-container channel is the empty string; the in-container
process's output streams arrive merged in the stdout component. -/
theorem docker_execute_stderr_always_empty (rt : DockerOracle)
    (shlex : ShlexOracle) (command : String) (working_dir : Option String) :
    (∀ r, rt ["sh", "-c", command] working_dir = .ok r →
      dockerExecuteCommand rt shlex command working_dir =
        (decodeOutput r.output, "", r.exit_code)) ∧
    (∀ msg parts r, rt ["sh", "-c", command] working_dir = .apiError msg →
      isShNotFound msg = true →
      parseSimpleCommand shlex command = some parts →
      rt parts working_dir = .ok r →
      dockerExecuteCommand rt shlex command working_dir =
        (decodeOutput r.output, "", r.exit_code)) := by
  constructor
  · intro r h
    simp [dockerExecuteCommand, h]
  · intro msg parts r hapi hsh hparse hrun
    simp [dockerExecuteCommand, hapi, hsh, executeCommandDirect, hparse, hrun]

/-- Witness for **C9**: a runtime with a shell, and one without whose
direct-exec fallback accepts `pip --version`. -/
theorem docker_execute_stderr_always_empty_witness :
    dockerExecuteCommand rtMerged shlexSpaces "dpkg -l" none
      = ("stdout and stderr interleaved", "", 0) ∧
    dockerExecuteCommand rtNoShell shlexSpaces "pip --version" none
      = ("pip 24.0", "", 0) :=
  ⟨(docker_execute_stderr_always_empty rtMerged shlexSpaces "dpkg -l" none).1
      ⟨some "stdout and stderr interleaved", 0⟩ rfl,
   (docker_execute_stderr_always_empty rtNoShell shlexSpaces "pip --version" none).2
      "OCI runtime exec failed: exec: \"sh\": executable file not found in PATH"
      ["pip", "--version"] ⟨some "pip 24.0", 0⟩ rfl (by decide) (by decide) rfl⟩

/-- **C8** counterexample: for a container whose image tag carries a
registry path, the reported image reference is abbreviated to the last
path segment — the full registry path is *not* preserved. -/
theorem docker_image_name_abbreviated_cex :
    dictGet (dockerInfoGetDependencies "web" ["ghcr.io/acme/app:1.2"] "sha256:0a1b")
      "image" = some "app:1.2" ∧
    ("app:1.2" : String) ≠ "ghcr.io/acme/app:1.2" := by
  constructor
  · rfl
  · decide

/-- **C8** (amended): the container-identity detector reports the
container's name, its image content digest, and an image reference
abbreviated from the first tag — `"unknown"` when the image has no tags,
the tag itself when it has no slash, and only the segment after the last
slash when it carries a registry path. -/
theorem docker_container_info_fields (name : String) (tags : List String)
    (imageId : String) :
    dockerInfoGetDependencies name tags imageId =
      [("name", name), ("image", extractImageName tags), ("hash", imageId)] ∧
    (tags = [] → extractImageName tags = "unknown") ∧
    (∀ t ts, tags = t :: ts → strContains t "/" = false →
      extractImageName tags = t) ∧
    (∀ t ts last, tags = t :: ts → strContains t "/" = true →
      (pySplit t "/").getLast? = some last → extractImageName tags = last) := by
  refine ⟨?_, ?_, ?_, ?_⟩
  · simp [dockerInfoGetDependencies, getContainerInfo, dictGet, List.find?]
  · intro h; subst h; rfl
  · intro t ts h hslash; subst h
    simp [extractImageName, hslash]
  · intro t ts last h hslash hlast; subst h
    simp [extractImageName, hslash, hlast]

/-- Witness for **C8** (amended) on a registry-qualified tag. -/
theorem docker_container_info_fields_witness :
    dockerInfoGetDependencies "web" ["ghcr.io/acme/app:1.2"] "sha256:0a1b" =
      [("name", "web"), ("image", extractImageName ["ghcr.io/acme/app:1.2"]),
       ("hash", "sha256:0a1b")] ∧
    extractImageName ["ghcr.io/acme/app:1.2"] = "app:1.2" :=
  ⟨(docker_container_info_fields "web" ["ghcr.io/acme/app:1.2"] "sha256:0a1b").1,
   (docker_container_info_fields "web" ["ghcr.io/acme/app:1.2"] "sha256:0a1b").2.2.2
     "ghcr.io/acme/app:1.2" [] "app:1.2" rfl (by decide) (by decide)⟩

/-- **C10**: with fail-fast enabled, the batch resolver can return fewer
results than requests: after the first failure the remaining slots stay
unfilled and are filtered out, so positional correspondence with the
submitted request list is lost.  Concretely: two requests, the second
(an unreachable container) completes first and fails; the returned list
has a single element, which pairs with the *second* request. -/
theorem resolve_batch_fail_fast_loses_positions :
    (resolveBatch
        (fun r => if r.environment_type = "docker" then
            .error "Container 'ghost' not found"
          else .ok exTrivial)
        (fun _ => []) false
        [{ environment_type := "host" },
         { environment_type := "docker", environment_identifier := some "ghost" }]
        [1, 0] true).length = 1 ∧
    (1 : Nat) < 2 ∧
    (resolveBatch
        (fun r => if r.environment_type = "docker" then
            .error "Container 'ghost' not found"
          else .ok exTrivial)
        (fun _ => []) false
        [{ environment_type := "host" },
         { environment_type := "docker", environment_identifier := some "ghost" }]
        [1, 0] true).map (fun res => res.request) =
      [{ environment_type := "docker", environment_identifier := some "ghost" }] ∧
    (resolveBatch
        (fun r => if r.environment_type = "docker" then
            .error "Container 'ghost' not found"
          else .ok exTrivial)
        (fun _ => []) false
        [{ environment_type := "host" },
         { environment_type := "docker", environment_identifier := some "ghost" }]
        [1, 0] true).map (fun res => (res.success, res.error)) =
      [(false, some "Container 'ghost' not found")] ∧
    ({ environment_type := "docker", environment_identifier := some "ghost" }
        : ResolveRequest) ≠ { environment_type := "host" } := by
  refine ⟨rfl, by decide, rfl, rfl, by decide⟩

/-- Without fail-fast the completion loop stores every completed result
at its submission index, in completion order. -/
theorem processCompletions_no_fail_fast (outcome : Nat → ResolveResult) :
    ∀ (order : List Nat) (results : List (Option ResolveResult)),
    processCompletions outcome false order results =
      order.foldl (fun acc i => acc.set i (some (outcome i))) results
  | [], _ => rfl
  | i :: rest, results => by
    simp only [processCompletions, false_and, if_false, List.foldl_cons]
    exact processCompletions_no_fail_fast outcome rest _

/-- Storing results by index commutes with lookups: a slot holds the
outcome of its own index once that index has been processed. -/
theorem foldl_set_getElem? (outcome : Nat → ResolveResult) :
    ∀ (order : List Nat) (results : List (Option ResolveResult)) (j : Nat),
    (∀ i ∈ order, i < results.length) →
    (order.foldl (fun acc i => acc.set i (some (outcome i))) results)[j]? =
      (if j ∈ order then some (some (outcome j)) else results[j]?) := by
  intro order
  induction order with
  | nil => intro results j _; simp
  | cons i rest ih =>
    intro results j hbound
    have hi : i < results.length := hbound i (List.mem_cons_self i rest)
    have hrest : ∀ k ∈ rest, k < (results.set i (some (outcome i))).length := by
      intro k hk
      rw [List.length_set]
      exact hbound k (List.mem_cons_of_mem i hk)
    rw [List.foldl_cons, ih _ j hrest]
    by_cases hjrest : j ∈ rest
    · rw [if_pos hjrest, if_pos (List.mem_cons_of_mem i hjrest)]
    · rw [if_neg hjrest]
      by_cases hij : i = j
      · subst hij
        rw [if_pos (List.mem_cons_self i rest), List.getElem?_set_self hi]
      · rw [List.getElem?_set_ne hij,
          if_neg (by
            intro hmem
            rcases List.mem_cons.1 hmem with h | h
            · exact hij h.symm
            · exact hjrest h)]

/-- Dropping `none` slots from a fully-filled slot list recovers the
plain result list. -/
theorem filterMap_id_map_some {α β : Type} (f : α → β) :
    ∀ l : List α, List.filterMap id (l.map (fun i => some (f i))) = l.map f
  | [] => rfl
  | x :: xs => by simp [filterMap_id_map_some f xs]

/-- **C4**: with the default (no fail-fast) mode, the batch resolver
returns results positionally equal to submission order, for *every*
completion order of the worker pool; and an individual request whose
executor construction fails yields, at its own index, a failed result
carrying that construction error, with all other indices holding exactly
the result their own request would produce in isolation. -/
theorem resolve_batch_positional (createExec : CreateExecutorOracle)
    (mkDetectors : Option String → List Detector) (skip : Bool)
    (requests : List ResolveRequest) (order : List Nat)
    (hperm : order.Perm (List.range requests.length)) :
    resolveBatch createExec mkDetectors skip requests order false =
      requests.map (resolveSingle createExec mkDetectors skip) ∧
    (∀ (i : Nat) (r : ResolveRequest) (e : String),
      requests[i]? = some r → createExec r = .error e →
      (resolveBatch createExec mkDetectors skip requests order false)[i]? =
        some ({ request := r, dependencies := none, error := some e,
                success := false } : ResolveResult)) := by
  have main : resolveBatch createExec mkDetectors skip requests order false =
      requests.map (resolveSingle createExec mkDetectors skip) := by
    by_cases hreq : requests = []
    · subst hreq
      simp [resolveBatch]
    · unfold resolveBatch
      rw [if_neg hreq]
      have hbound : ∀ i ∈ order,
          i < (List.replicate requests.length
            (none : Option ResolveResult)).length := by
        intro i hi
        rw [List.length_replicate]
        exact List.mem_range.1 (hperm.subset hi)
      show (List.filterMap id (processCompletions
        (fun i => resolveSingle createExec mkDetectors skip
          (requests.getD i default)) false order
        (List.replicate requests.length none))) = _
      rw [processCompletions_no_fail_fast]
      have hlist : (order.foldl
          (fun acc i => acc.set i (some (resolveSingle createExec mkDetectors
            skip (requests.getD i default))))
          (List.replicate requests.length none)) =
          (List.range requests.length).map (fun i =>
            some (resolveSingle createExec mkDetectors skip
              (requests.getD i default))) := by
        apply List.ext_getElem?
        intro j
        rw [foldl_set_getElem? _ order _ j hbound]
        by_cases hj : j < requests.length
        · rw [if_pos (hperm.mem_iff.2 (List.mem_range.2 hj))]
          rw [List.getElem?_map, List.getElem?_range hj]
          rfl
        · rw [if_neg (fun hmem => hj (List.mem_range.1 (hperm.subset hmem)))]
          rw [List.getElem?_eq_none (by rw [List.length_replicate]; omega),
            List.getElem?_eq_none (by rw [List.length_map, List.length_range]; omega)]
      rw [hlist, filterMap_id_map_some]
      apply List.ext_getElem?
      intro j
      by_cases hj : j < requests.length
      · rw [List.getElem?_map, List.getElem?_range hj, List.getElem?_map,
          List.getElem?_eq_getElem hj]
        simp [List.getD_eq_getElem?_getD, List.getElem?_eq_getElem hj]
      · rw [List.getElem?_eq_none (by rw [List.length_map, List.length_range]; omega),
          List.getElem?_eq_none (by rw [List.length_map]; omega)]
  refine ⟨main, ?_⟩
  intro i r e hr he
  rw [main, List.getElem?_map, hr]
  simp [resolveSingle, he]

/-- Witness for **C4**: two requests, completion order reversed; results
come back in submission order, and the docker request's construction
error is captured in its own slot. -/
theorem resolve_batch_positional_witness :
    resolveBatch ceGhost (fun _ => []) false [hostRequest, ghostRequest]
        [1, 0] false =
      [resolveSingle ceGhost (fun _ => []) false hostRequest,
       resolveSingle ceGhost (fun _ => []) false ghostRequest] ∧
    (resolveBatch ceGhost (fun _ => []) false [hostRequest, ghostRequest]
        [1, 0] false)[1]? =
      some ({ request := ghostRequest, dependencies := none,
              error := some "Container 'ghost' not found",
              success := false } : ResolveResult) := by
  have h := resolve_batch_positional ceGhost (fun _ => []) false
    [hostRequest, ghostRequest] [1, 0] (by decide)
  exact ⟨h.1, h.2 1 ghostRequest "Container 'ghost' not found" rfl rfl⟩

/-- A detector whose usability check raises, or whose extraction raises,
contributes nothing: its loop iteration leaves the aggregation state
untouched. -/
theorem processDetector_of_failure (skip : Bool) (ex : Exec)
    (wd : Option String) (st : OrchState) (d : Detector)
    (hbad : (∃ e, d.is_usable ex wd = .error e) ∨
      (d.is_usable ex wd = .ok true ∧ ∃ e, d.get_dependencies ex wd = .error e)) :
    processDetector skip ex wd st d = st := by
  unfold processDetector
  rcases hbad with ⟨e, he⟩ | ⟨hu, e, he⟩
  · rw [he]
  · rw [hu]
    by_cases hskip : skip
    · subst hskip
      simp only [if_true]
      cases hs : d.has_system_scope ex wd with
      | error _ => rfl
      | ok b =>
        cases b with
        | true => rfl
        | false =>
          by_cases hname : d.name = "docker-info"
          · rw [if_pos hname, he]
          · rw [if_neg hname, he]
    · simp only [if_neg hskip]
      by_cases hname : d.name = "docker-info"
      · rw [if_pos hname, he]
      · rw [if_neg hname, he]

/-- **C1**: per-detector failure isolation.  If one detector's usability
check or extraction raises, the exception is caught: the aggregated
result over any detector list containing it equals the result over the
same list with that detector removed — the failing detector contributes
no entry at all, and every other detector's packages and metadata are
exactly as they would have been without it.  Holds for every executor,
working directory, scope-skip setting and container-info filter. -/
theorem orchestrator_isolates_failing_detector (skip only_ci : Bool)
    (ex : Exec) (wd : Option String) (l1 l2 : List Detector) (bad : Detector)
    (hbad : (∃ e, bad.is_usable ex wd = .error e) ∨
      (bad.is_usable ex wd = .ok true ∧
        ∃ e, bad.get_dependencies ex wd = .error e)) :
    resolveDependencies skip (l1 ++ bad :: l2) ex wd only_ci =
      resolveDependencies skip (l1 ++ l2) ex wd only_ci := by
  unfold resolveDependencies
  by_cases hwd : wd.isSome ∧ ¬ ex.path_exists (wd.getD "")
  · rw [if_pos hwd, if_pos hwd]
  · rw [if_neg hwd, if_neg hwd]
    have hstep : ∀ st, processDetector skip ex wd st bad = st :=
      fun st => processDetector_of_failure skip ex wd st bad hbad
    have hst : (if only_ci then
          ((l1 ++ bad :: l2).filter (fun d => d.name == "docker-info"))
        else (l1 ++ bad :: l2)).foldl (processDetector skip ex wd)
          OrchState.init =
        (if only_ci then
          ((l1 ++ l2).filter (fun d => d.name == "docker-info"))
        else (l1 ++ l2)).foldl (processDetector skip ex wd) OrchState.init := by
      cases only_ci with
      | false =>
        simp only [Bool.false_eq_true, if_false]
        rw [List.foldl_append, List.foldl_cons, hstep, ← List.foldl_append]
      | true =>
        simp only [if_true]
        rw [List.filter_append, List.filter_cons]
        by_cases hname : (bad.name == "docker-info") = true
        · rw [if_pos hname, List.filter_append]
          rw [List.foldl_append, List.foldl_cons, hstep, ← List.foldl_append]
        · rw [if_neg hname, List.filter_append]
    show Except.ok (assembleResult (List.foldl (processDetector skip ex wd)
        OrchState.init (if only_ci = true then
          List.filter (fun d => d.name == "docker-info") (l1 ++ bad :: l2)
        else l1 ++ bad :: l2))) =
      Except.ok (assembleResult (List.foldl (processDetector skip ex wd)
        OrchState.init (if only_ci = true then
          List.filter (fun d => d.name == "docker-info") (l1 ++ l2)
        else l1 ++ l2)))
    rw [hst]

/-- Witness for **C1**: a healthy detector next to one whose checks
raise; removing the failing one does not change the result. -/
theorem orchestrator_isolates_failing_detector_witness :
    (∃ e, badDetector.is_usable exTrivial none = .error e) ∧
    resolveDependencies false [goodDetector, badDetector] exTrivial none false =
      resolveDependencies false [goodDetector] exTrivial none false :=
  ⟨⟨"pip exploded", rfl⟩,
   orchestrator_isolates_failing_detector false false exTrivial none
     [goodDetector] [] badDetector (Or.inl ⟨"pip exploded", rfl⟩)⟩

/-- Case analysis of one loop iteration under system-scope skipping: the
state is unchanged, or the detector classified as *non*-system scope and
contributed only a source entry (container identity) or only project
packages/metadata. -/
theorem processDetector_skip_cases (ex : Exec) (wd : Option String)
    (st : OrchState) (d : Detector) :
    processDetector true ex wd st d = st ∨
    (d.has_system_scope ex wd = .ok false ∧
      ((∃ src, processDetector true ex wd st d = { st with source := src }) ∨
       (∃ pkgs md, d.get_dependencies ex wd = .ok (pkgs, md) ∧
         processDetector true ex wd st d =
           { st with
             project_packages := st.project_packages ++ pkgs,
             project_metadata :=
               if md ≠ [] then metaSet st.project_metadata d.name md
               else st.project_metadata }))) := by
  cases husable : d.is_usable ex wd with
  | error e => exact Or.inl (by simp [processDetector, husable])
  | ok b =>
    cases b with
    | false => exact Or.inl (by simp [processDetector, husable])
    | true =>
      cases hscope : d.has_system_scope ex wd with
      | error e => exact Or.inl (by simp [processDetector, husable, hscope])
      | ok sb =>
        cases sb with
        | true => exact Or.inl (by simp [processDetector, husable, hscope])
        | false =>
          by_cases hname : d.name = "docker-info"
          · cases hdep : d.get_dependencies ex wd with
            | error e =>
              exact Or.inl (by
                simp [processDetector, husable, hscope, hname, hdep])
            | ok pm =>
              obtain ⟨pkgs, md⟩ := pm
              by_cases hmd : md ≠ []
              · refine Or.inr ⟨rfl, Or.inl
                  ⟨some (dictSet md "type" "container"), ?_⟩⟩
                simp [processDetector, husable, hscope, hname, hdep, hmd]
              · exact Or.inl (by
                  simp [processDetector, husable, hscope, hname, hdep, hmd])
          · cases hdep : d.get_dependencies ex wd with
            | error e =>
              exact Or.inl (by
                simp [processDetector, husable, hscope, hname, hdep])
            | ok pm =>
              obtain ⟨pkgs, md⟩ := pm
              refine Or.inr ⟨rfl, Or.inr ⟨pkgs, md, rfl, ?_⟩⟩
              simp [processDetector, husable, hscope, hname, hdep]

/-- Fold invariant under system-scope skipping: the system section stays
empty, and every project package satisfies any property enjoyed by the
packages extracted from non-system-scope detectors in the list. -/
theorem foldl_skip_system_inv (ex : Exec) (wd : Option String)
    (Q : Package → Prop) :
    ∀ (l : List Detector) (st : OrchState),
    (∀ p ∈ st.project_packages, Q p) →
    st.system_packages = [] →
    st.system_metadata = [] →
    (∀ d ∈ l, d.has_system_scope ex wd = .ok false →
      ∀ pkgs md, d.get_dependencies ex wd = .ok (pkgs, md) →
        ∀ p ∈ pkgs, Q p) →
    ((l.foldl (processDetector true ex wd) st).system_packages = [] ∧
     (l.foldl (processDetector true ex wd) st).system_metadata = [] ∧
     ∀ p ∈ (l.foldl (processDetector true ex wd) st).project_packages, Q p)
  | [], st, hP, hS, hM, _ => ⟨hS, hM, hP⟩
  | d :: rest, st, hP, hS, hM, hl => by
    rw [List.foldl_cons]
    have hrest : ∀ d' ∈ rest, d'.has_system_scope ex wd = .ok false →
        ∀ pkgs md, d'.get_dependencies ex wd = .ok (pkgs, md) →
          ∀ p ∈ pkgs, Q p :=
      fun d' hd' => hl d' (List.mem_cons_of_mem d hd')
    rcases processDetector_skip_cases ex wd st d with heq |
      ⟨hscope, ⟨src, heq⟩ | ⟨pkgs, md, hdep, heq⟩⟩
    · rw [heq]
      exact foldl_skip_system_inv ex wd Q rest st hP hS hM hrest
    · rw [heq]
      exact foldl_skip_system_inv ex wd Q rest _ hP hS hM hrest
    · rw [heq]
      refine foldl_skip_system_inv ex wd Q rest _ ?_ hS hM hrest
      intro p hp
      rcases List.mem_append.1 hp with hp | hp
      · exact hP p hp
      · exact hl d (List.mem_cons_self d rest) hscope pkgs md hdep p hp

/-- **C3**: system-scope skipping.  With the skip flag on, the aggregated
result has no system section, and every package anywhere in it was
extracted by a detector whose scope classification returned non-system —
so no package of a system-scope detector appears.  Moreover a usable
detector classified as system scope is dispatched as exactly
usability-check then scope-check (no extraction even though usability
passed), and whenever extraction is performed the scope check was
consulted right before it. -/
theorem orchestrator_skip_system_scope (ex : Exec) (wd : Option String)
    (only_ci : Bool) (dets : List Detector) (res : AggregatedResult)
    (hres : resolveDependencies true dets ex wd only_ci = .ok res) :
    res.system = none ∧
    (∀ p ∈ res.projectPackages, ∃ d ∈ dets,
      d.has_system_scope ex wd = .ok false ∧
      ∃ pkgs md, d.get_dependencies ex wd = .ok (pkgs, md) ∧ p ∈ pkgs) ∧
    (∀ d : Detector, d.is_usable ex wd = .ok true →
      d.has_system_scope ex wd = .ok true →
      detectorTrace true ex wd d = [.usability, .scope]) ∧
    (∀ d : Detector, EvKind.extract ∈ detectorTrace true ex wd d →
      (detectorTrace true ex wd d).take 2 = [.usability, .scope]) := by
  have htrace1 : ∀ d : Detector, d.is_usable ex wd = .ok true →
      d.has_system_scope ex wd = .ok true →
      detectorTrace true ex wd d = [.usability, .scope] := by
    intro d hu hs
    unfold detectorTrace
    rw [hu]
    show (if true = true then _ else _) = _
    rw [if_pos rfl, hs]
  have htrace2 : ∀ d : Detector, EvKind.extract ∈ detectorTrace true ex wd d →
      (detectorTrace true ex wd d).take 2 = [.usability, .scope] := by
    intro d hmem
    unfold detectorTrace at hmem ⊢
    cases hu : d.is_usable ex wd with
    | error e => rw [hu] at hmem; simp at hmem
    | ok b =>
      cases b with
      | false => rw [hu] at hmem; simp at hmem
      | true =>
        cases hs : d.has_system_scope ex wd with
        | error e => rfl
        | ok sb =>
          cases sb with
          | true => rfl
          | false =>
            by_cases hname : d.name = "docker-info"
            · simp [hname]
            · rw [if_neg hname]
              cases hdep : d.get_dependencies ex wd <;> rfl
  unfold resolveDependencies at hres
  by_cases hwd : wd.isSome ∧ ¬ ex.path_exists (wd.getD "")
  · rw [if_pos hwd] at hres
    exact absurd hres (by simp)
  · rw [if_neg hwd] at hres
    have hres' : assembleResult
        ((if only_ci then dets.filter (fun d => d.name == "docker-info")
          else dets).foldl (processDetector true ex wd) OrchState.init) =
        res := by
      exact Except.ok.inj hres
    set toRun := (if only_ci then
      dets.filter (fun d => d.name == "docker-info") else dets) with htoRun
    have hsub : ∀ d ∈ toRun, d ∈ dets := by
      intro d hd
      rw [htoRun] at hd
      cases only_ci with
      | false => simpa using hd
      | true =>
        simp at hd
        exact hd.1
    have hinv := foldl_skip_system_inv ex wd
      (fun p => ∃ d ∈ dets, d.has_system_scope ex wd = .ok false ∧
        ∃ pkgs md, d.get_dependencies ex wd = .ok (pkgs, md) ∧ p ∈ pkgs)
      toRun OrchState.init (by intro p hp; exact absurd hp (by simp [OrchState.init]))
      rfl rfl
      (by
        intro d hd hscope pkgs md hdep p hp
        exact ⟨d, hsub d hd, hscope, pkgs, md, hdep, hp⟩)
    obtain ⟨hS, hM, hP⟩ := hinv
    refine ⟨?_, ?_, htrace1, htrace2⟩
    · rw [← hres']
      simp [assembleResult, hS, hM]
    · intro p hp
      rw [← hres'] at hp
      simp only [assembleResult, AggregatedResult.projectPackages] at hp
      by_cases hcond : (toRun.foldl (processDetector true ex wd)
          OrchState.init).project_packages ≠ [] ∨
          (toRun.foldl (processDetector true ex wd)
            OrchState.init).project_metadata ≠ []
      · rw [if_pos hcond] at hp
        exact hP p hp
      · rw [if_neg hcond] at hp
        simp at hp

/-- Witness for **C3**: a usable system-scope detector beside a
project-scope one.  The system-scope detector's package never appears,
the system section is absent, the project package comes from the
non-system detector, and the skipped detector's trace stops at the scope
check. -/
theorem orchestrator_skip_system_scope_witness :
    resolveDependencies true [sysScopeDetector, projScopeDetector] exTrivial
        none false =
      .ok ⟨none, some ⟨[⟨"left-pad", "1.3.0", "npm"⟩],
        [("npm", [("location", "/app")])]⟩, none⟩ ∧
    (⟨none, some ⟨[⟨"left-pad", "1.3.0", "npm"⟩],
        [("npm", [("location", "/app")])]⟩, none⟩ : AggregatedResult).system
      = none ∧
    (∃ d ∈ [sysScopeDetector, projScopeDetector],
      d.has_system_scope exTrivial none = .ok false ∧
      ∃ pkgs md, d.get_dependencies exTrivial none = .ok (pkgs, md) ∧
        (⟨"left-pad", "1.3.0", "npm"⟩ : Package) ∈ pkgs) ∧
    detectorTrace true exTrivial none sysScopeDetector =
      [.usability, .scope] := by
  have hres : resolveDependencies true [sysScopeDetector, projScopeDetector]
      exTrivial none false = .ok ⟨none, some ⟨[⟨"left-pad", "1.3.0", "npm"⟩],
        [("npm", [("location", "/app")])]⟩, none⟩ := by rfl
  have h := orchestrator_skip_system_scope exTrivial none false
    [sysScopeDetector, projScopeDetector] _ hres
  refine ⟨hres, h.1, ?_, h.2.2.1 sysScopeDetector rfl rfl⟩
  exact h.2.1 ⟨"left-pad", "1.3.0", "npm"⟩ (by
    simp [AggregatedResult.projectPackages])

/-- Any successful venv search leaves the cache filled: the state is
marked searched and caches exactly the returned path. -/
theorem findVenvPath_ok_searched (ex : Exec) (wd : Option String)
    (st st' : PipState) (v : Option String)
    (h : findVenvPath ex wd st = .ok (v, st')) :
    st'.searched = true ∧ st'.cached_venv_path = v := by
  unfold findVenvPath at h
  by_cases hs : st.searched
  · rw [if_pos hs] at h
    simp only [Except.ok.injEq, Prod.mk.injEq] at h
    obtain ⟨hv, hst⟩ := h
    subst hst
    exact ⟨hs, hv⟩
  · rw [if_neg hs] at h
    cases hbp : buildSearchPaths ex wd st.explicit_venv_path with
    | error e => rw [hbp] at h; simp at h
    | ok search_paths =>
      rw [hbp] at h
      unfold finishFindVenv findVenvFallback at h
      repeat' split at h
      all_goals
        first
        | exact Except.noConfusion h
        | (obtain ⟨hv, hst⟩ := Prod.mk.inj (Except.ok.inj h)
           subst hv
           subst hst
           exact ⟨rfl, rfl⟩)

/-- Once the venv cache is filled, re-running the search returns the
cached answer and leaves the state unchanged. -/
theorem getPipCommand_stable (ex : Exec) (wd : Option String)
    (st st' : PipState) (cmd : String)
    (h : getPipCommand ex wd st = .ok (cmd, st')) :
    getPipCommand ex wd st' = .ok (cmd, st') := by
  unfold getPipCommand at h ⊢
  cases hv : findVenvPath ex wd st with
  | error e => rw [hv] at h; exact Except.noConfusion h
  | ok p =>
    obtain ⟨v, st1⟩ := p
    rw [hv] at h
    obtain ⟨hsearched, hcached⟩ := findVenvPath_ok_searched ex wd st st1 v hv
    have hv' : findVenvPath ex wd st1 = .ok (v, st1) := by
      unfold findVenvPath
      rw [if_pos hsearched, hcached]
    obtain ⟨hcmd, hst⟩ := Prod.mk.inj (Except.ok.inj h)
    subst hcmd
    subst hst
    rw [hv']

/-- Re-resolving the pip location from the post-search state returns the
same location without further state change (the cache makes the second
scope query of one orchestrator iteration agree with the first). -/
theorem getPipLocation_stable (ex : Exec) (wd : Option String)
    (st st' : PipState) (loc : String)
    (h : getPipLocation ex wd st = .ok (loc, st')) :
    getPipLocation ex wd st' = .ok (loc, st') := by
  unfold getPipLocation at h ⊢
  cases hc : getPipCommand ex wd st with
  | error e => rw [hc] at h; exact Except.noConfusion h
  | ok p =>
    obtain ⟨cmd, st1⟩ := p
    rw [hc] at h
    obtain ⟨hloc, hst⟩ := Prod.mk.inj (Except.ok.inj h)
    subst hloc
    subst hst
    rw [getPipCommand_stable ex wd st st1 cmd hc]

/-- A metadata dict holding only a location never has a hash key. -/
theorem dictGet_location_hash_none (loc : String) :
    dictGet [("location", loc)] "hash" = none := by
  have hb : (("location" : String) == "hash") = false := by decide
  simp [dictGet, List.find?, hb]

/-- Adding the hash key to a location-only dict appends it. -/
theorem dictSet_location_hash (loc v : String) :
    dictSet [("location", loc)] "hash" v = [("location", loc), ("hash", v)] := by
  have hb : (("location" : String) == "hash") = false := by decide
  simp [dictSet, hb]

/-- Lookups in the two-entry project metadata dict. -/
theorem dictGet_pair (loc v : String) :
    dictGet [("location", loc), ("hash", v)] "hash" = some v ∧
    dictGet [("location", loc), ("hash", v)] "location" = some loc := by
  have hb : (("location" : String) == "hash") = false := by decide
  have hb2 : (("hash" : String) == "hash") = true := by decide
  have hb3 : (("location" : String) == "location") = true := by decide
  constructor <;> simp [dictGet, List.find?, hb, hb2, hb3]

/-- The `pip list` stage emits a hash key only for a non-system location
with at least one package, and a system classification of the final
state implies no hash key. -/
theorem pipListFrom_hash (ex : Exec) (sha : String → String)
    (wd : Option String) (cmd : String) (st1 : PipState)
    (pkgs : List Package) (md : Dict) (st' : PipState)
    (h : pipListFrom ex sha wd cmd st1 = .ok ⟨pkgs, md, st'⟩) :
    (∀ hv, dictGet md "hash" = some hv → pkgs ≠ [] ∧
      ∃ loc, dictGet md "location" = some loc ∧ loc ≠ "system") ∧
    (∀ b st'', pipHasSystemScope ex wd st' = .ok (b, st'') → b = true →
      dictGet md "hash" = none) := by
  unfold pipListFrom at h
  rcases hexec : ex.execute_command (cmd ++ " list --format=freeze") wd
    with ⟨stdout, rest⟩
  obtain ⟨stderr, ec⟩ := rest
  rw [hexec] at h
  dsimp only at h
  by_cases hec : ec ≠ 0
  · rw [if_pos hec] at h
    cases hl : getPipLocation ex wd st1 with
    | error e => rw [hl] at h; exact Except.noConfusion h
    | ok q =>
      obtain ⟨loc, st2⟩ := q
      rw [hl] at h
      obtain ⟨h1, h2⟩ := Prod.mk.inj (Except.ok.inj h)
      obtain ⟨h2a, h2b⟩ := Prod.mk.inj h2
      subst h1
      subst h2a
      subst h2b
      constructor
      · intro hv hhv
        exfalso
        by_cases hsys : loc = "system"
        · simp [pipFinishFail, hsys, dictGet] at hhv
        · simp [pipFinishFail, hsys, dictGet_location_hash_none] at hhv
      · intro b st'' _ _
        by_cases hsys : loc = "system"
        · simp [pipFinishFail, hsys, dictGet]
        · simp [pipFinishFail, hsys, dictGet_location_hash_none]
  · rw [if_neg hec] at h
    cases hl : getPipLocation ex wd st1 with
    | error e => rw [hl] at h; exact Except.noConfusion h
    | ok q =>
      obtain ⟨loc, st2⟩ := q
      rw [hl] at h
      obtain ⟨h1, h2⟩ := Prod.mk.inj (Except.ok.inj h)
      obtain ⟨h2a, h2b⟩ := Prod.mk.inj h2
      subst h1
      subst h2a
      subst h2b
      by_cases hsys : loc = "system"
      · constructor
        · intro hv hhv
          exfalso
          simp [pipFinishOk, hsys, dictGet] at hhv
        · intro b st'' _ _
          simp [pipFinishOk, hsys, dictGet]
      · by_cases hpk : pipParsePackages stdout ≠ []
        · constructor
          · intro hv _
            refine ⟨by simp [pipFinishOk, hsys, hpk], loc, ?_, hsys⟩
            simp [pipFinishOk, hsys, hpk, dictSet_location_hash,
              (dictGet_pair loc (pipGenerateLocationHash ex sha loc)).2]
          · intro b st'' hscope hb
            exfalso
            have hl' := getPipLocation_stable ex wd st1 st2 loc hl
            unfold pipHasSystemScope at hscope
            rw [hl'] at hscope
            obtain ⟨hb', _⟩ := Prod.mk.inj (Except.ok.inj hscope)
            rw [← hb'] at hb
            exact hsys (of_decide_eq_true hb)
        · constructor
          · intro hv hhv
            exfalso
            simp [pipFinishOk, hsys, hpk, dictGet_location_hash_none] at hhv
          · intro b st'' hscope hb
            exfalso
            have hl' := getPipLocation_stable ex wd st1 st2 loc hl
            unfold pipHasSystemScope at hscope
            rw [hl'] at hscope
            obtain ⟨hb', _⟩ := Prod.mk.inj (Except.ok.inj hscope)
            rw [← hb'] at hb
            exact hsys (of_decide_eq_true hb)

/-- The npm detector emits a hash key only for a non-system location with
at least one package, and never when it classifies as system scope. -/
theorem npmGetDependencies_hash (ex : Exec) (jd : NpmJsonOracle)
    (sha : String → String) (wd : Option String)
    (pkgs : List Package) (md : Dict)
    (h : npmGetDependencies ex jd sha wd = .ok (pkgs, md)) :
    (∀ hv, dictGet md "hash" = some hv → pkgs ≠ [] ∧
      ∃ loc, dictGet md "location" = some loc ∧ loc ≠ "system") ∧
    (npmHasSystemScope ex wd = .ok true → dictGet md "hash" = none) := by
  unfold npmGetDependencies at h
  rcases hexec : ex.execute_command "npm list --json --depth=0" wd
    with ⟨stdout, rest⟩
  obtain ⟨stderr, ec⟩ := rest
  rw [hexec] at h
  dsimp only at h
  cases hloc : getNpmLocation ex wd with
  | error e => rw [hloc] at h; exact Except.noConfusion h
  | ok loc =>
    rw [hloc] at h
    dsimp only at h
    have hsysscope : npmHasSystemScope ex wd = .ok (decide (loc = "system")) := by
      unfold npmHasSystemScope
      rw [hloc]
    by_cases hec : ec ≠ 0
    · rw [if_pos hec] at h
      by_cases hsys : loc = "system"
      · rw [if_pos hsys] at h
        obtain ⟨h1, h2⟩ := Prod.mk.inj (Except.ok.inj h)
        subst h1
        subst h2
        exact ⟨fun hv hhv => by simp [dictGet] at hhv, fun _ => by simp [dictGet]⟩
      · rw [if_neg hsys] at h
        obtain ⟨h1, h2⟩ := Prod.mk.inj (Except.ok.inj h)
        subst h1
        subst h2
        constructor
        · intro hv hhv
          exfalso
          rw [dictGet_location_hash_none] at hhv
          exact Option.noConfusion hhv
        · intro hscope
          exfalso
          rw [hsysscope] at hscope
          have := Except.ok.inj hscope
          exact hsys (of_decide_eq_true this)
    · rw [if_neg hec] at h
      by_cases hsys : loc = "system"
      · rw [if_pos hsys] at h
        obtain ⟨h1, h2⟩ := Prod.mk.inj (Except.ok.inj h)
        subst h1
        subst h2
        exact ⟨fun hv hhv => by simp [dictGet] at hhv, fun _ => by simp [dictGet]⟩
      · rw [if_neg hsys] at h
        by_cases hpk : (match jd stdout with
          | none => ([] : List Package)
          | some deps => deps.map (fun nv => ⟨nv.1, nv.2.getD "unknown", "npm"⟩)) ≠ []
        · rw [if_pos hpk] at h
          obtain ⟨h1, h2⟩ := Prod.mk.inj (Except.ok.inj h)
          subst h1
          subst h2
          constructor
          · intro hv _
            refine ⟨hpk, loc, ?_, hsys⟩
            rw [dictSet_location_hash]
            exact (dictGet_pair loc (npmGenerateLocationHash ex sha loc)).2
          · intro hscope
            exfalso
            rw [hsysscope] at hscope
            exact hsys (of_decide_eq_true (Except.ok.inj hscope))
        · rw [if_neg hpk] at h
          obtain ⟨h1, h2⟩ := Prod.mk.inj (Except.ok.inj h)
          subst h1
          subst h2
          constructor
          · intro hv hhv
            exfalso
            rw [dictGet_location_hash_none] at hhv
            exact Option.noConfusion hhv
          · intro hscope
            exfalso
            rw [hsysscope] at hscope
            exact hsys (of_decide_eq_true (Except.ok.inj hscope))

/-- **C2**: a location hash field is emitted only for a project-scoped
(non-system) resolved location together with a non-empty package list;
a system-scoped result never carries one.  Stated for the two detectors
that compute location hashes (pip, with its cached search state, and
npm), over every executor, hash function and JSON oracle. -/
theorem detector_hash_only_for_nonempty_project (ex : Exec)
    (sha256hex : String → String) (jd : NpmJsonOracle) (wd : Option String)
    (st : PipState) :
    (∀ pkgs md st' hv,
      pipGetDependencies ex sha256hex wd st = .ok ⟨pkgs, md, st'⟩ →
      dictGet md "hash" = some hv →
      pkgs ≠ [] ∧ ∃ loc, dictGet md "location" = some loc ∧ loc ≠ "system") ∧
    (∀ pkgs md st' b st'',
      pipGetDependencies ex sha256hex wd st = .ok ⟨pkgs, md, st'⟩ →
      pipHasSystemScope ex wd st' = .ok (b, st'') → b = true →
      dictGet md "hash" = none) ∧
    (∀ pkgs md hv,
      npmGetDependencies ex jd sha256hex wd = .ok (pkgs, md) →
      dictGet md "hash" = some hv →
      pkgs ≠ [] ∧ ∃ loc, dictGet md "location" = some loc ∧ loc ≠ "system") ∧
    (∀ pkgs md,
      npmGetDependencies ex jd sha256hex wd = .ok (pkgs, md) →
      npmHasSystemScope ex wd = .ok true → dictGet md "hash" = none) := by
  have hpip : ∀ pkgs md st',
      pipGetDependencies ex sha256hex wd st = .ok ⟨pkgs, md, st'⟩ →
      (∀ hv, dictGet md "hash" = some hv → pkgs ≠ [] ∧
        ∃ loc, dictGet md "location" = some loc ∧ loc ≠ "system") ∧
      (∀ b st'', pipHasSystemScope ex wd st' = .ok (b, st'') → b = true →
        dictGet md "hash" = none) := by
    intro pkgs md st' h
    unfold pipGetDependencies at h
    have hlist : ∀ st0 : PipState,
        pipListAndPackage ex sha256hex wd st0 = .ok ⟨pkgs, md, st'⟩ →
        (∀ hv, dictGet md "hash" = some hv → pkgs ≠ [] ∧
          ∃ loc, dictGet md "location" = some loc ∧ loc ≠ "system") ∧
        (∀ b st'', pipHasSystemScope ex wd st' = .ok (b, st'') → b = true →
          dictGet md "hash" = none) := by
      intro st0 hh
      unfold pipListAndPackage at hh
      cases hc : getPipCommand ex wd st0 with
      | error e => rw [hc] at hh; exact Except.noConfusion hh
      | ok p =>
        obtain ⟨cmd, st1⟩ := p
        rw [hc] at hh
        exact pipListFrom_hash ex sha256hex wd cmd st1 pkgs md st' hh
    by_cases hwd : pyTruthy wd = true
    · rw [if_pos hwd] at h
      cases hv : findVenvPath ex wd st with
      | error e => rw [hv] at h; exact Except.noConfusion h
      | ok p =>
        obtain ⟨v, st1⟩ := p
        rw [hv] at h
        cases v with
        | none =>
          dsimp only at h
          cases hr : resolveAbsolutePath ex (wd.getD "") with
          | error e => rw [hr] at h; exact Except.noConfusion h
          | ok location =>
            rw [hr] at h
            obtain ⟨h1, h2⟩ := Prod.mk.inj (Except.ok.inj h)
            obtain ⟨h2a, h2b⟩ := Prod.mk.inj h2
            subst h1
            subst h2a
            subst h2b
            constructor
            · intro hv' hhv
              exfalso
              rw [dictGet_location_hash_none] at hhv
              exact Option.noConfusion hhv
            · intro b st'' _ _
              exact dictGet_location_hash_none location
        | some venv =>
          dsimp only at h
          exact hlist st1 h
    · rw [if_neg hwd] at h
      exact hlist st h
  have hnpm : ∀ pkgs md,
      npmGetDependencies ex jd sha256hex wd = .ok (pkgs, md) →
      (∀ hv, dictGet md "hash" = some hv → pkgs ≠ [] ∧
        ∃ loc, dictGet md "location" = some loc ∧ loc ≠ "system") ∧
      (npmHasSystemScope ex wd = .ok true → dictGet md "hash" = none) :=
    fun pkgs md h => npmGetDependencies_hash ex jd sha256hex wd pkgs md h
  exact ⟨fun pkgs md st' hv h hhv => (hpip pkgs md st' h).1 hv hhv,
    fun pkgs md st' b st'' h hs hb => (hpip pkgs md st' h).2 b st'' hs hb,
    fun pkgs md hv h hhv => (hnpm pkgs md h).1 hv hhv,
    fun pkgs md h hs => (hnpm pkgs md h).2 hs⟩

/-- Witness for **C2**: a pip venv project with one package (hash key
present, project location), and system-scope pip/npm targets whose
metadata carries no hash. -/
theorem detector_hash_only_for_nonempty_project_witness :
    (([⟨"alpha", "1.0", "pip"⟩] : List Package) ≠ [] ∧
      ∃ loc, dictGet [("location", "/proj/venv/lib"), ("hash", "")] "location"
        = some loc ∧ loc ≠ "system") ∧
    dictGet ([] : Dict) "hash" = none ∧
    (([⟨"leftpad", "1.0", "npm"⟩] : List Package) ≠ [] ∧
      ∃ loc, dictGet [("location", "/app"), ("hash", "")] "location"
        = some loc ∧ loc ≠ "system") ∧
    dictGet ([] : Dict) "hash" = none := by
  have hpip := detector_hash_only_for_nonempty_project pipWitnessExec
    (fun s => s) (fun _ => none) none ⟨none, none, false⟩
  have hsys := detector_hash_only_for_nonempty_project noProjExec
    (fun s => s) (fun _ => none) none ⟨none, none, false⟩
  have hnpm := detector_hash_only_for_nonempty_project npmWitnessExec
    (fun s => s)
    (fun s => if s = "{}" then some [("leftpad", some "1.0")] else none)
    none ⟨none, none, false⟩
  refine ⟨?_, ?_, ?_, ?_⟩
  · exact hpip.1 [⟨"alpha", "1.0", "pip"⟩]
      [("location", "/proj/venv/lib"), ("hash", "")] ⟨none, none, true⟩ ""
      (by rfl) (by rfl)
  · exact hsys.2.1 [] [] ⟨none, none, true⟩ true ⟨none, none, true⟩
      (by rfl) (by rfl) rfl
  · exact hnpm.2.2.1 [⟨"leftpad", "1.0", "npm"⟩]
      [("location", "/app"), ("hash", "")] "" (by rfl) (by rfl)
  · exact hsys.2.2.2 [] [] (by rfl) (by rfl)

/-- Discovery never raises once the search paths are assembled, so a
successful assembly for a truthy working directory implies the
directory's absolute path was resolvable. -/
theorem buildSearchPaths_ok_resolve (ex : Exec) (w : String)
    (evp : Option String) (sp : List String)
    (hw : pyTruthy (some w) = true)
    (h : buildSearchPaths ex (some w) evp = .ok sp) :
    ∃ loc, resolveAbsolutePath ex w = .ok loc := by
  unfold buildSearchPaths at h
  rw [show ((some w).getD "") = w from rfl] at h
  cases hr : resolveAbsolutePath ex w with
  | ok loc => exact ⟨loc, rfl⟩
  | error e =>
    rw [hr] at h
    simp [hw] at h

/-- **C6**: a pip extraction with a (truthy) working directory whose
fresh venv discovery finds nothing returns zero packages and
project-scope metadata whose location is the resolved absolute path of
that directory — an `.ok` result, not a raised error. -/
theorem pip_no_venv_empty_project_result (ex : Exec) (sha : String → String)
    (w : String) (st st₁ : PipState)
    (hw : w ≠ "") (hfresh : st.searched = false)
    (hnone : findVenvPath ex (some w) st = .ok (none, st₁)) :
    ∃ loc, resolveAbsolutePath ex w = .ok loc ∧
      pipGetDependencies ex sha (some w) st =
        .ok ⟨[], [("location", loc)], st₁⟩ := by
  have hw' : pyTruthy (some w) = true := by simp [pyTruthy, hw]
  have hresolve : ∃ loc, resolveAbsolutePath ex w = .ok loc := by
    unfold findVenvPath at hnone
    rw [if_neg (by rw [hfresh]; exact Bool.false_ne_true)] at hnone
    cases hbp : buildSearchPaths ex (some w) st.explicit_venv_path with
    | error e => rw [hbp] at hnone; exact Except.noConfusion hnone
    | ok sp => exact buildSearchPaths_ok_resolve ex w _ sp hw' hbp
  obtain ⟨loc, hloc⟩ := hresolve
  refine ⟨loc, hloc, ?_⟩
  unfold pipGetDependencies
  rw [if_pos hw', hnone]
  dsimp only
  rw [show ((some w).getD "") = w from rfl, hloc]

/-- Witness for **C6**: an empty project directory `/emptyproj` with a
working path-resolution channel and no virtual environment anywhere. -/
theorem pip_no_venv_empty_project_result_witness :
    resolveAbsolutePath emptyProjExec "/emptyproj" = .ok "/emptyproj" ∧
    pipGetDependencies emptyProjExec (fun s => s) (some "/emptyproj")
      ⟨none, none, false⟩ =
      .ok ⟨[], [("location", "/emptyproj")], ⟨none, none, true⟩⟩ := by
  obtain ⟨loc, h1, h2⟩ := pip_no_venv_empty_project_result emptyProjExec
    (fun s => s) "/emptyproj" ⟨none, none, false⟩ ⟨none, none, true⟩
    (by decide) rfl (by rfl)
  have hl : loc = "/emptyproj" :=
    Except.ok.inj (h1.symm.trans (by rfl))
  subst hl
  exact ⟨h1, h2⟩

set_option maxRecDepth 20000 in
set_option maxHeartbeats 8000000 in
/-- The filesystem model answers the candidate-assembly commands
(override echo, `cd /p && pwd`, external-location echos) uniformly in
the file list, so assembly yields the ground candidate list. -/
theorem buildSearchPaths_fsModel (files : List String) :
    buildSearchPaths (fsExecutor ⟨files, "/h", "/h"⟩) (some "/p")
      (some "/ov") = .ok venvSearchCandidates := rfl

set_option maxRecDepth 20000 in
set_option maxHeartbeats 16000000 in
/-- The filesystem model interprets the assembled batch find command as
the first-marker search over exactly the candidate list. -/
theorem fsExecCmd_find_eval (files : List String) :
    fsExecCmd ⟨files, "/h", "/h"⟩ (mkFindCmd venvSearchCandidates) =
      fsFindResult files venvSearchCandidates := rfl

set_option maxRecDepth 20000 in
set_option maxHeartbeats 8000000 in
/-- Ground evaluation of one fresh venv discovery against the filesystem
model (working directory `/p`, override `/ov`, home `/h`): everything up
to the batch `find` reduces, leaving the first-marker search over the
assembled candidate list. -/
theorem findVenv_fsModel_eval (files : List String) :
    findVenvPath (fsExecutor ⟨files, "/h", "/h"⟩) (some "/p")
      (pipStateWithOverride "/ov") =
    finishFindVenv (pipStateWithOverride "/ov")
      (fsFindResult files venvSearchCandidates)
      (none, { pipStateWithOverride "/ov" with
        cached_venv_path := none, searched := true }) := by
  unfold findVenvPath
  rw [if_neg (by decide)]
  rw [show (pipStateWithOverride "/ov").explicit_venv_path = some "/ov"
    from rfl]
  rw [buildSearchPaths_fsModel]
  dsimp only
  rw [if_pos (by decide : (venvSearchCandidates ≠ []))]
  rw [show (fsExecutor ⟨files, "/h", "/h"⟩).execute_command
      (mkFindCmd venvSearchCandidates) none =
    fsExecCmd ⟨files, "/h", "/h"⟩ (mkFindCmd venvSearchCandidates) from rfl]
  rw [fsExecCmd_find_eval]
  rfl

set_option maxRecDepth 20000 in
/-- **C7**: in virtual-environment discovery, a candidate is accepted
only when the `pyvenv.cfg` marker exists directly at that candidate
path, and the first validated candidate in priority order wins; in
particular, when both the explicit override and a conventional `venv`
subdirectory of the working directory contain the marker, discovery
returns the override path. -/
theorem venv_discovery_marker_and_override :
    (∀ (files : List String) (p : String) (st' : PipState),
      findVenvPath (fsExecutor ⟨files, "/h", "/h"⟩) (some "/p")
        (pipStateWithOverride "/ov") = .ok (some p, st') →
      files.contains (p ++ "/pyvenv.cfg") = true ∧
      venvSearchCandidates.find?
        (fun q => files.contains (q ++ "/pyvenv.cfg")) = some p) ∧
    (∀ files : List String,
      files.contains "/ov/pyvenv.cfg" = true →
      files.contains "/p/venv/pyvenv.cfg" = true →
      findVenvPath (fsExecutor ⟨files, "/h", "/h"⟩) (some "/p")
        (pipStateWithOverride "/ov") =
        .ok (some "/ov", ⟨some "/ov", some "/ov", true⟩)) := by
  constructor
  · intro files p st' h
    rw [findVenv_fsModel_eval] at h
    unfold fsFindResult findMarkerPath at h
    cases hq : venvSearchCandidates.find?
        (fun q => files.contains (q ++ "/pyvenv.cfg")) with
    | none =>
      rw [hq] at h
      exact Option.noConfusion (Prod.mk.inj (Except.ok.inj h)).1
    | some q =>
      have hmem := List.mem_of_find?_eq_some hq
      have hpq := List.find?_some hq
      rw [hq] at h
      unfold venvSearchCandidates at hmem
      fin_cases hmem <;>
        (obtain ⟨h1, h2⟩ := Prod.mk.inj (Except.ok.inj h)
         obtain rfl := Option.some.inj h1
         exact ⟨hpq, rfl⟩)
  · intro files h1 _h2
    rw [findVenv_fsModel_eval]
    have hpred : files.contains ("/ov" ++ "/pyvenv.cfg") = true := by
      rw [show ("/ov" ++ "/pyvenv.cfg" : String) = "/ov/pyvenv.cfg" from rfl]
      exact h1
    have hfind : venvSearchCandidates.find?
        (fun q => files.contains (q ++ "/pyvenv.cfg")) = some "/ov" := by
      rw [show venvSearchCandidates = "/ov" :: ["/p", "/p/venv", "/p/.venv",
        "/p/env", "/p/.env", "/p/virtualenv", "/h/.virtualenvs/p",
        "/h/.local/share/virtualenvs/p", "/h/.cache/pypoetry/virtualenvs/p",
        "/h/.pyenv/versions/p"] from rfl]
      exact List.find?_cons_of_pos _ hpred
    unfold fsFindResult findMarkerPath
    rw [hfind]
    rfl

set_option maxRecDepth 20000 in
/-- Witness for **C7**: a filesystem holding the marker both at the
override path and in the conventional `venv` subdirectory; discovery
returns the override, which is validated by the marker and is the first
validated candidate. -/
theorem venv_discovery_marker_and_override_witness :
    findVenvPath
      (fsExecutor ⟨["/ov/pyvenv.cfg", "/p/venv/pyvenv.cfg"], "/h", "/h"⟩)
      (some "/p") (pipStateWithOverride "/ov") =
      .ok (some "/ov", ⟨some "/ov", some "/ov", true⟩) ∧
    (["/ov/pyvenv.cfg", "/p/venv/pyvenv.cfg"] : List String).contains
      ("/ov" ++ "/pyvenv.cfg") = true ∧
    venvSearchCandidates.find? (fun q =>
      (["/ov/pyvenv.cfg", "/p/venv/pyvenv.cfg"] : List String).contains
        (q ++ "/pyvenv.cfg")) = some "/ov" := by
  have hov := venv_discovery_marker_and_override.2
    ["/ov/pyvenv.cfg", "/p/venv/pyvenv.cfg"] (by decide) (by decide)
  have hacc := venv_discovery_marker_and_override.1
    ["/ov/pyvenv.cfg", "/p/venv/pyvenv.cfg"] "/ov"
    ⟨some "/ov", some "/ov", true⟩ hov
  exact ⟨hov, hacc.1, hacc.2⟩
